import Mathlib

/-!
Verification development for the Matnog digital-tourism itinerary planner
(`itinerary/services.py`).  The planner service is shallowly embedded below:

* Python `float`/`Decimal` values are modelled exactly by `PRat`, an
  unnormalised fraction (integer numerator, positive integer denominator).
  Every planner operation on floats (addition, multiplication, division by
  positive constants, comparisons, truncation via `int(...)`) is exact
  rational arithmetic, so `PRat` is a faithful idealisation; it is kept
  unnormalised so that all computations reduce inside the kernel.
* The haversine helper `_calculate_distance` is transcendental floating-point
  mathematics; it is abstracted as an oracle parameter
  `dist : PRat → PRat → PRat → PRat → PRat` (latitude/longitude pairs in,
  kilometres out).  Every theorem below is proved for an arbitrary oracle,
  and concrete instances pick simple concrete oracles.
* `datetime` values are modelled at day granularity (an integer count of
  days since 1970-01-01): the service only ever renders dates with
  `strftime('%Y-%m-%d')`, so the time-of-day component is unobservable.
  The calendar rendering itself is implemented exactly (proleptic Gregorian,
  as Python's `datetime.strftime` produces for years 1..9999).
* Python truthiness of `Decimal`/ints (zero is falsy) and of optional values
  is modelled explicitly where the service relies on it.
* `float(None)` raises `TypeError`; computations that can reach such a call
  are embedded in the `Option` monad, `none` meaning the Python exception.
-/

namespace MatnogPlanner

/-- Exact stand-in for a Python `float`/`Decimal` value: an unnormalised
fraction with a positive denominator.  Unnormalised so that all arithmetic
is plain integer arithmetic and reduces in the kernel. -/
structure PRat where
  num : ℤ
  den : ℤ
  dpos : 0 < den

instance : DecidableEq PRat := fun a b =>
  decidable_of_iff (a.num = b.num ∧ a.den = b.den)
    ⟨fun h => by
        obtain ⟨h1, h2⟩ := h
        cases a; cases b; simp only at h1 h2; subst h1; subst h2; rfl,
      fun h => by subst h; exact ⟨rfl, rfl⟩⟩

instance : Repr PRat := ⟨fun a _ => repr a.num ++ "/" ++ repr a.den⟩

namespace PRat

/-- Embed an integer. -/
def ofInt (n : ℤ) : PRat := ⟨n, 1, one_pos⟩

/-- `a + b` on Python floats. -/
def add (a b : PRat) : PRat :=
  ⟨a.num * b.den + b.num * a.den, a.den * b.den, mul_pos a.dpos b.dpos⟩

/-- `a * b` on Python floats. -/
def mul (a b : PRat) : PRat :=
  ⟨a.num * b.num, a.den * b.den, mul_pos a.dpos b.dpos⟩

/-- `a / b` on Python floats (the service only ever divides by nonzero
values; division by zero is given a junk value). -/
def div (a b : PRat) : PRat :=
  if h : 0 < b.num then ⟨a.num * b.den, a.den * b.num, mul_pos a.dpos h⟩
  else if h2 : b.num < 0 then
    ⟨-(a.num * b.den), a.den * -b.num, mul_pos a.dpos (neg_pos.mpr h2)⟩
  else ofInt 0

/-- Boolean `a < b`. -/
def blt (a b : PRat) : Bool := decide (a.num * b.den < b.num * a.den)

/-- Boolean `a ≤ b`. -/
def ble (a b : PRat) : Bool := decide (a.num * b.den ≤ b.num * a.den)

/-- Boolean value equality `a == b` (semantic, not representational). -/
def beq (a b : PRat) : Bool := decide (a.num * b.den = b.num * a.den)

/-- Is the value zero?  (Python truthiness: `Decimal('0')` is falsy.) -/
def isZero (a : PRat) : Bool := decide (a.num = 0)

/-- `math.floor`; also Python `int(...)` on nonnegative values. -/
def floor (a : PRat) : ℤ := a.num / a.den

/-- Python `int(x)`: truncation toward zero. -/
def pyInt (a : PRat) : ℤ :=
  if 0 ≤ a.num then a.num / a.den else -((-a.num) / a.den)

/-- The rational value denoted. -/
def toRat (a : PRat) : ℚ := (a.num : ℚ) / (a.den : ℚ)

end PRat

/-- Shorthand used throughout: the distance oracle standing in for the
haversine helper `_calculate_distance` (decimal-degree coordinates in,
kilometres out). -/
def DistOracle : Type := PRat → PRat → PRat → PRat → PRat

/-! ### Calendar rendering (`strftime('%Y-%m-%d')`, `strftime('%H:%M')`) -/

/-- Zero-pad a nonnegative integer to two digits. -/
def pad2 (n : ℤ) : String := if n < 10 then "0" ++ toString n else toString n

/-- Zero-pad a nonnegative integer to four digits (`%Y`). -/
def pad4 (n : ℤ) : String :=
  if n < 10 then "000" ++ toString n
  else if n < 100 then "00" ++ toString n
  else if n < 1000 then "0" ++ toString n
  else toString n

/-- Proleptic-Gregorian conversion of a day count since 1970-01-01 into
`(year, month, day)` (the standard civil-from-days algorithm; exact for the
whole `datetime` range). -/
def civilFromDays (z0 : ℤ) : ℤ × ℤ × ℤ :=
  let z := z0 + 719468
  let era := z.fdiv 146097
  let doe := z - era * 146097
  let yoe := (doe - doe / 1460 + doe / 36524 - doe / 146096) / 365
  let y := yoe + era * 400
  let doy := doe - (365 * yoe + yoe / 4 - yoe / 100)
  let mp := (5 * doy + 2) / 153
  let d := doy - (153 * mp + 2) / 5 + 1
  let m := mp + (if mp < 10 then 3 else -9)
  (if m ≤ 2 then y + 1 else y, m, d)

/-- `strftime('%Y-%m-%d')` of a day count since 1970-01-01. -/
def dateStr (z : ℤ) : String :=
  let ymd := civilFromDays z
  pad4 ymd.1 ++ "-" ++ pad2 ymd.2.1 ++ "-" ++ pad2 ymd.2.2

/-- `strftime('%H:%M')` of a `datetime` held as minutes from midnight of a
reference day (`datetime.strptime('06:00', '%H:%M')` plus `timedelta`s). -/
def fmtHM (m : ℤ) : String := pad2 (m / 60 % 24) ++ ":" ++ pad2 (m % 60)

/-! ### Data model (`destination/models.py`, `accommodation/models.py`,
`itinerary/services.py` dataclasses)

Catalog lists are given in the order the corresponding Django queryset
returns them (`Destination` is ordered by name, `Accommodation` by
`-created_at`); the planner never re-reads the database, so a list snapshot
is the exact input. -/

/-- A `Destination` row, as consumed by the planner and serializer. -/
structure Destination where
  id : ℕ
  name : String
  category : String
  description : Option String := none
  address : Option String := none
  latitude : Option PRat := none
  longitude : Option PRat := none
  openingTime : Option ℤ := none
  closingTime : Option ℤ := none
  avgDurationMinutes : ℕ := 60
  entranceFee : Option PRat := none
  budgetCategory : String := "low"
  wheelchairFriendly : Bool := false
  kidFriendly : Bool := false
  seniorFriendly : Bool := false
  image : Option String := none
  isActive : Bool := true
  status : String := "active"
deriving DecidableEq, Repr

/-- An `Accommodation` row, as consumed by the planner and serializer. -/
structure Accommodation where
  id : ℕ
  name : String
  accType : String
  address : Option String := none
  contactNumber : Option String := none
  email : Option String := none
  website : Option String := none
  latitude : Option PRat := none
  longitude : Option PRat := none
  budgetCategory : String := "low"
  wifiAvailable : Bool := false
  parkingAvailable : Bool := false
  breakfastIncluded : Bool := false
  airConditioned : Bool := false
  wheelchairFriendly : Bool := false
  petFriendly : Bool := false
  image : Option String := none
  isActive : Bool := true
  status : String := "active"
deriving DecidableEq, Repr

/-- `TravelPreferences` (services.py lines 13-39).  `startDate` models the
optional ISO string through the lens of `datetime.strptime`: `none` is an
absent (or empty, hence falsy) string, `some none` a string that `strptime`
rejects, and `some (some d)` a string parsing to day `d` (days since
1970-01-01). -/
structure TravelPreferences where
  days : ℕ
  pax : ℕ
  budgetCategory : String
  startingPoint : String := "sorsogon_city"
  transportMode : List String := []
  interests : List String := []
  pacePreference : String
  hasChildren : Bool := false
  hasSeniors : Bool := false
  hasDisabilities : Bool := false
  hasPets : Bool := false
  includeAccommodation : Bool := true
  accommodationTypes : List String := []
  maxTravelTime : ℤ := 120
  mustVisitIds : List ℕ := []
  excludeDestinationIds : List ℕ := []
  excludeCategories : List String := []
  accommodationId : Option ℕ := none
  pointOfOrigin : String := "Sorsogon City"
  travelTimeHours : PRat := PRat.ofInt 0
  activityOnSameDay : Bool := true
  startDate : Option (Option ℤ) := none
deriving DecidableEq, Repr

/-- A scheduled `Activity` (services.py lines 42-51). -/
structure Activity where
  destination : Destination
  startTime : String
  endTime : String
  durationMinutes : ℕ
  travelTimeFromPrevious : ℤ := 0
  distanceFromPrevious : PRat := PRat.ofInt 0
  activityType : String := "destination"
deriving DecidableEq, Repr

/-- A `DayPlan` (services.py lines 54-66). -/
structure DayPlan where
  dayNumber : ℕ
  date : String
  activities : List Activity
  accommodation : Option Accommodation := none
  totalActivities : ℕ := 0
  totalTravelTime : ℤ := 0
  totalDistance : PRat := PRat.ofInt 0
  isRestDay : Bool := false
  isTravelDay : Bool := false
  dayType : String := "regular"
deriving DecidableEq, Repr

/-- Per-pace configuration (one row of `PACE_RULES`); times are minutes,
clock times minutes from midnight. -/
structure PaceConfig where
  activitiesPerDayMin : ℕ
  activitiesPerDayMax : ℕ
  maxDailyTravelTime : ℤ
  bufferTime : ℤ
  earliestStart : ℤ
  latestEnd : ℤ
  mandatoryRest : Bool
deriving DecidableEq, Repr

/-- `PACE_RULES` (services.py lines 73-98); `none` models the `KeyError`
raised on an unknown pace. -/
def PACE_RULES : String → Option PaceConfig
  | "relaxed" => some ⟨2, 3, 60, 90, 540, 1080, true⟩
  | "moderate" => some ⟨3, 4, 120, 60, 480, 1200, false⟩
  | "packed" => some ⟨5, 7, 180, 30, 360, 1320, false⟩
  | _ => none

/-- `INTEREST_MAPPING` (services.py lines 101-114); `.get(interest, [])`. -/
def INTEREST_MAPPING : String → List String
  | "nature" => ["nature"]
  | "beaches" => ["nature"]
  | "adventure" => ["adventure", "nature"]
  | "cultural" => ["cultural"]
  | "historical" => ["historical", "cultural"]
  | "wildlife" => ["adventure", "nature"]
  | "photography" => ["nature", "cultural", "historical"]
  | "relaxation" => ["nature"]
  | "hiking" => ["adventure", "nature"]
  | "water_sports" => ["adventure", "nature"]
  | "local_cuisine" => ["cultural", "food"]
  | "shopping" => ["shopping", "other"]
  | _ => []

/-! ### Python truthiness helpers -/

/-- `float(x) if x else d`: an absent or zero `Decimal` falls back to the
default (Python truthiness: `None` and `Decimal('0')` are both falsy). -/
def floatOrDefault (x : Option PRat) (d : PRat) : PRat :=
  match x with
  | some v => if v.isZero then d else v
  | none => d

/-- Truthiness of an optional `Decimal` field. -/
def decimalTruthy (x : Option PRat) : Bool :=
  match x with
  | some v => !v.isZero
  | none => false

/-- `n or 90` on a Python int (zero is falsy). -/
def durationOr90 (n : ℕ) : ℕ := if n = 0 then 90 else n

/-- The region-centroid placeholder coordinates substituted by the
day-builder for missing coordinates (12.97° N). -/
def PLACEHOLDER_LAT : PRat := ⟨1297, 100, by norm_num⟩

/-- The region-centroid placeholder longitude (124.00° E). -/
def PLACEHOLDER_LON : PRat := ⟨124, 1, one_pos⟩

/-! ### `_filter_destinations` and `_score_destinations` -/

/-- The `budget_hierarchy` dict (insertion order preserved). -/
def budgetHierarchy : List (String × ℕ) := [("low", 1), ("medium", 2), ("high", 3)]

/-- `budget_hierarchy.get(budget_category, 2)`. -/
def user_budget_level (b : String) : ℕ := (budgetHierarchy.lookup b).getD 2

/-- `[k for k, v in budget_hierarchy.items() if v <= user_budget_level]`. -/
def acceptable_budgets (lvl : ℕ) : List String :=
  (budgetHierarchy.filter (fun kv => kv.2 ≤ lvl)).map Prod.fst

/-- `_filter_destinations` (services.py lines 155-183): the hard eligibility
filter chain over the active-destination queryset. -/
def filter_destinations (prefs : TravelPreferences) (catalog : List Destination) :
    List Destination :=
  let queryset := catalog.filter (fun d => d.isActive && (d.status == "active"))
  let queryset :=
    if prefs.excludeDestinationIds ≠ [] then
      queryset.filter (fun d => !decide (d.id ∈ prefs.excludeDestinationIds))
    else queryset
  let queryset :=
    if prefs.excludeCategories ≠ [] then
      queryset.filter (fun d => !decide (d.category ∈ prefs.excludeCategories))
    else queryset
  let lvl := user_budget_level prefs.budgetCategory
  let queryset := queryset.filter (fun d => decide (d.budgetCategory ∈ acceptable_budgets lvl))
  let queryset := if prefs.hasChildren then queryset.filter (·.kidFriendly) else queryset
  let queryset := if prefs.hasSeniors then queryset.filter (·.seniorFriendly) else queryset
  let queryset := if prefs.hasDisabilities then queryset.filter (·.wheelchairFriendly) else queryset
  queryset

/-- The additive relevance score of one destination (services.py lines
185-216).  Every addend is a small integer, so float addition is exact and
the score is modelled as an integer. -/
def score_destination (prefs : TravelPreferences) (dest : Destination) : ℤ :=
  let interestScore : ℤ :=
    prefs.interests.foldl
      (fun s i => if dest.category ∈ INTEREST_MAPPING i then s + 10 else s) 0
  let s := interestScore + (if dest.id ∈ prefs.mustVisitIds then 50 else 0)
  let duration := durationOr90 dest.avgDurationMinutes
  let s := s +
    (if prefs.pacePreference = "relaxed" ∧ 90 ≤ duration then 5
     else if prefs.pacePreference = "packed" ∧ duration ≤ 60 then 5
     else if prefs.pacePreference = "moderate" then 3 else 0)
  let fee := floatOrDefault dest.entranceFee (PRat.ofInt 0)
  s + (if fee.isZero then 2 else 0)

/-- `_score_destinations`: score then stable-sort by score descending
(Python's `list.sort` is stable; `insertionSort` with the same relation has
identical stability behaviour). -/
def score_destinations (prefs : TravelPreferences) (dests : List Destination) :
    List (Destination × ℤ) :=
  List.insertionSort (fun a b : Destination × ℤ => b.2 ≤ a.2)
    (dests.map (fun dest => (dest, score_destination prefs dest)))

/-! ### `_select_accommodations` -/

/-- The automatic (filtered) accommodation selection branch
(services.py lines 238-261). -/
def auto_select_accommodations (prefs : TravelPreferences)
    (catalog : List Accommodation) : List Accommodation :=
  let queryset := catalog.filter (fun a => a.isActive && (a.status == "active"))
  let lvl := user_budget_level prefs.budgetCategory
  let queryset := queryset.filter (fun a => decide (a.budgetCategory ∈ acceptable_budgets lvl))
  let queryset :=
    if prefs.accommodationTypes ≠ [] then
      queryset.filter (fun a => decide (a.accType ∈ prefs.accommodationTypes))
    else queryset
  let queryset := if prefs.hasPets then queryset.filter (·.petFriendly) else queryset
  let queryset := if prefs.hasDisabilities then queryset.filter (·.wheelchairFriendly) else queryset
  queryset.take (if prefs.days ≤ 3 then 1 else 2)

/-- `_select_accommodations` (services.py lines 221-261).  An explicitly
requested id is looked up among active records (`objects.get`, which under
primary-key uniqueness returns the matching record or raises
`DoesNotExist`; the `except` branch falls through to auto-selection).
`if self.prefs.accommodation_id:` is Python truthiness, so id 0 skips the
lookup. -/
def select_accommodations (prefs : TravelPreferences)
    (catalog : List Accommodation) : List Accommodation :=
  if !prefs.includeAccommodation then []
  else
    let looked : Option Accommodation :=
      match prefs.accommodationId with
      | some i =>
        if i ≠ 0 then
          catalog.find? (fun a => a.id == i && a.isActive && (a.status == "active"))
        else none
      | none => none
    match looked with
    | some a => [a]
    | none => auto_select_accommodations prefs catalog

/-! ### `_cluster_destinations` -/

/-- The per-accommodation inner loop of `_cluster_destinations`
(services.py lines 275-287).  Must-visit destinations are claimed at most
once (Django model equality compares primary keys, so `dest not in
must_visit_dests` is an id check); other destinations read
`float(acc.latitude)` … `float(dest.longitude)` with **no** null guard, so a
missing coordinate raises `TypeError` (modelled by `none`).  Returns the
`nearby` list and the updated claimed-must-visit list. -/
def cluster_nearby (dist : DistOracle) (mustVisitIds : List ℕ) (acc : Accommodation) :
    List (Destination × ℤ) → List Destination →
    Option (List Destination × List Destination)
  | [], mv => some ([], mv)
  | (dest, _) :: rest, mv =>
    if decide (dest.id ∈ mustVisitIds) then
      if mv.any (fun m => m.id == dest.id) then cluster_nearby dist mustVisitIds acc rest mv
      else do
        let p ← cluster_nearby dist mustVisitIds acc rest (mv ++ [dest])
        pure (dest :: p.1, p.2)
    else do
      let aLat ← acc.latitude
      let aLon ← acc.longitude
      let dLat ← dest.latitude
      let dLon ← dest.longitude
      if (dist aLat aLon dLat dLon).ble (PRat.ofInt 30) then
        let p ← cluster_nearby dist mustVisitIds acc rest mv
        pure (dest :: p.1, p.2)
      else cluster_nearby dist mustVisitIds acc rest mv

/-- `_cluster_destinations` (services.py lines 263-303). -/
def cluster_destinations (dist : DistOracle) (prefs : TravelPreferences)
    (cfg : PaceConfig) (ranked : List (Destination × ℤ))
    (accommodations : List Accommodation) : Option (List (List Destination)) :=
  if accommodations.isEmpty then
    some [(ranked.take (prefs.days * cfg.activitiesPerDayMax)).map Prod.fst]
  else do
    let st ← accommodations.foldlM
      (fun (st : List (List Destination) × List Destination) acc => do
        let p ← cluster_nearby dist prefs.mustVisitIds acc ranked st.2
        pure (if p.1 ≠ [] then (st.1 ++ [p.1], p.2) else (st.1, p.2)))
      (([], []) : List (List Destination) × List Destination)
    if st.1 ≠ [] then pure st.1
    else
      let count := prefs.days * cfg.activitiesPerDayMax
      let top0 := (ranked.take count).map Prod.fst
      let top := ranked.foldl
        (fun t (p : Destination × ℤ) =>
          if decide (p.1.id ∈ prefs.mustVisitIds) && !(t.any (fun q => q.id == p.1.id)) then
            p.1 :: t
          else t) top0
      pure [top]

/-- `_estimate_travel_time` (services.py lines 320-322):
`int((distance_km / 40) * 60)` minutes at 40 km/h. -/
def estimate_travel_time (distanceKm : PRat) : ℤ :=
  ((distanceKm.div (PRat.ofInt 40)).mul (PRat.ofInt 60)).pyInt

/-! ### `_build_daily_itinerary` (services.py lines 324-596) -/

/-- The float literal `1.5` (exact). -/
def ONE_POINT_FIVE : PRat := ⟨3, 2, by norm_num⟩

/-- `_parse_start_date` (services.py lines 125-132): an absent or malformed
start date falls back to `datetime.now()` (`now`, at day granularity). -/
def parse_start_date (prefs : TravelPreferences) (now : ℤ) : ℤ :=
  match prefs.startDate with
  | some (some d) => d
  | _ => now

/-- `needs_arrival_travel` / `needs_departure_travel`
(services.py lines 122-123): both are `travel_time_hours > 0`. -/
def needs_travel (prefs : TravelPreferences) : Bool :=
  (PRat.ofInt 0).blt prefs.travelTimeHours

/-- The first activity day: day 2 exactly when a full arrival travel day is
inserted (non-zero travel time, same-day activity disabled), else day 1
(services.py lines 331-351). -/
def activity_start_day (prefs : TravelPreferences) : ℕ :=
  if needs_travel prefs && !prefs.activityOnSameDay then 2 else 1

/-- `effective_days` after the arrival/departure adjustments
(services.py lines 331-354). -/
def effective_days (prefs : TravelPreferences) : ℤ :=
  ((prefs.days : ℤ) - (if needs_travel prefs && !prefs.activityOnSameDay then 1 else 0))
    - (if needs_travel prefs then 1 else 0)

/-- `rest_days` (services.py lines 356-359): one rest day at
`activity_start_day + effective_days // 2` when `effective_days >= 5`. -/
def rest_days (prefs : TravelPreferences) : List ℤ :=
  if 5 ≤ effective_days prefs then
    [(activity_start_day prefs : ℤ) + effective_days prefs / 2]
  else []

/-- The day numbers the activity-day loop ranges over:
`range(activity_start_day, prefs.days + 1)`. -/
def loop_days (prefs : TravelPreferences) : List ℕ :=
  List.range' (activity_start_day prefs) (prefs.days + 1 - activity_start_day prefs)

/-- The `seen_ids` deduplication split of the destination pool into
must-visit and other destinations, both in pool order
(services.py lines 366-382). -/
def dedup_pool (mustVisitIds : List ℕ) :
    List Destination → List ℕ → List Destination × List Destination
  | [], _ => ([], [])
  | d :: rest, seen =>
    if decide (d.id ∈ seen) then dedup_pool mustVisitIds rest seen
    else
      let p := dedup_pool mustVisitIds rest (d.id :: seen)
      if decide (d.id ∈ mustVisitIds) then (d :: p.1, p.2) else (p.1, d :: p.2)

/-- The round-robin distribution of must-visit destinations over active
days (services.py lines 395-405): the bucket of `day` holds the must-visit
destinations whose index `i` satisfies `active_days[i % len(active_days)] ==
day`, in index order. -/
def must_visit_assignment (mv : List Destination) (active : List ℕ) (day : ℕ) :
    List Destination :=
  if active.isEmpty then []
  else ((mv.enum).filter (fun p => active.get? (p.1 % active.length) == some day)).map
    Prod.snd

/-- The mutable per-day scheduling state threaded through the two fill
loops. -/
structure DayState where
  currentTime : ℤ
  lastLat : PRat
  lastLon : PRat
  totalTravel : ℤ
  totalDistance : PRat
  activitiesAdded : ℕ
  dailyActivities : List Activity

/-- Accept one destination into the day (shared body of the two fill loops,
services.py lines 484-506 and 529-552): advance the clock by travel, visit
and buffer time, append the activity, move the current location. -/
def accept_destination (cfg : PaceConfig) (dest : Destination) (destLat destLon : PRat)
    (distance : PRat) (travelTime : ℤ) (st : DayState) : DayState :=
  let t1 := st.currentTime + travelTime
  let startTime := fmtHM t1
  let duration := durationOr90 dest.avgDurationMinutes
  let t2 := t1 + (duration : ℤ)
  let endTime := fmtHM t2
  let t3 := t2 + cfg.bufferTime
  let activity : Activity :=
    { destination := dest, startTime, endTime, durationMinutes := duration,
      travelTimeFromPrevious := travelTime, distanceFromPrevious := distance,
      activityType := "destination" }
  { currentTime := t3, lastLat := destLat, lastLon := destLon,
    totalTravel := st.totalTravel + travelTime,
    totalDistance := st.totalDistance.add distance,
    activitiesAdded := st.activitiesAdded + 1,
    dailyActivities := st.dailyActivities ++ [activity] }

/-- The must-visit loop of one day (services.py lines 467-510): constraints
relaxed ×1.5, over-far or over-budget items are skipped (`continue`), the
loop stops at the day's activity target or past the day-end bound. -/
def schedule_must_visit (dist : DistOracle) (prefs : TravelPreferences)
    (cfg : PaceConfig) (numActivities : ℕ) :
    List Destination → DayState → DayState
  | [], st => st
  | dest :: rest, st =>
    if numActivities ≤ st.activitiesAdded then st
    else
      let destLat := floatOrDefault dest.latitude PLACEHOLDER_LAT
      let destLon := floatOrDefault dest.longitude PLACEHOLDER_LON
      let distance := dist st.lastLat st.lastLon destLat destLon
      let travelTime := estimate_travel_time distance
      let maxTravel := (PRat.ofInt prefs.maxTravelTime).mul ONE_POINT_FIVE
      let maxDailyTravel := (PRat.ofInt cfg.maxDailyTravelTime).mul ONE_POINT_FIVE
      if maxTravel.blt (PRat.ofInt travelTime) ||
          maxDailyTravel.blt (PRat.ofInt (st.totalTravel + travelTime)) then
        schedule_must_visit dist prefs cfg numActivities rest st
      else
        let st' := accept_destination cfg dest destLat destLon distance travelTime st
        if cfg.latestEnd < st'.currentTime then st'
        else schedule_must_visit dist prefs cfg numActivities rest st'

/-- The filler loop of one day (services.py lines 513-556), consuming
`other_dests[other_dest_index:]` (passed as the `remaining` list argument,
always `otherDests.drop idx`).  A too-far filler is skipped for good (index
advances); a filler that would blow the daily travel budget stops the day
with the index unchanged.  Returns the final state and shared index. -/
def fill_other (dist : DistOracle) (prefs : TravelPreferences) (cfg : PaceConfig)
    (numActivities : ℕ) :
    List Destination → ℕ → DayState → DayState × ℕ
  | [], idx, st => (st, idx)
  | dest :: rest, idx, st =>
    if st.activitiesAdded < numActivities then
      let destLat := floatOrDefault dest.latitude PLACEHOLDER_LAT
      let destLon := floatOrDefault dest.longitude PLACEHOLDER_LON
      let distance := dist st.lastLat st.lastLon destLat destLon
      let travelTime := estimate_travel_time distance
      if prefs.maxTravelTime < travelTime then
        fill_other dist prefs cfg numActivities rest (idx + 1) st
      else if cfg.maxDailyTravelTime < st.totalTravel + travelTime then
        (st, idx)
      else
        let st' := accept_destination cfg dest destLat destLon distance travelTime st
        if cfg.latestEnd < st'.currentTime then (st', idx + 1)
        else fill_other dist prefs cfg numActivities rest (idx + 1) st'
    else (st, idx)

/-- Python's `round(x, ndigits)` idealised over exact rationals
(round-half-to-even). -/
def roundHalfEven (q : PRat) : ℤ :=
  let f := q.floor
  let rem2 := 2 * (q.num - f * q.den)
  if rem2 < q.den then f
  else if q.den < rem2 then f + 1
  else if f % 2 = 0 then f else f + 1

/-- `round(x, ndigits)` as a value. -/
def round_py (q : PRat) (ndigits : ℕ) : PRat :=
  ⟨roundHalfEven (q.mul (PRat.ofInt ((10 : ℤ) ^ ndigits))), (10 : ℤ) ^ ndigits,
    pow_pos (by norm_num) ndigits⟩

/-- `_create_travel_day` (services.py lines 598-616). -/
def create_travel_day (prefs : TravelPreferences) (tripStart : ℤ) (dayNumber : ℕ)
    (currentAccommodation : Option Accommodation) (isArrival : Bool) : DayPlan :=
  { dayNumber, date := dateStr (tripStart + (dayNumber : ℤ) - 1), activities := [],
    accommodation := if isArrival then currentAccommodation else none,
    isTravelDay := true,
    dayType := if isArrival then "travel_to" else "travel_from",
    totalActivities := 0,
    totalTravelTime := (prefs.travelTimeHours.mul (PRat.ofInt 60)).pyInt,
    totalDistance := PRat.ofInt 0 }

/-- The two fill loops of one regular day (services.py lines 460-556),
from the fresh per-day state (`total_travel = 0`, no activities, starting
clock `startTime`, starting location `startPos`): run the must-visit loop
over the day's bucket, then the filler loop from the shared index. -/
def run_day_fill (dist : DistOracle) (prefs : TravelPreferences) (cfg : PaceConfig)
    (numActivities : ℕ) (startTime : ℤ) (startPos : PRat × PRat)
    (bucket : List Destination) (otherDests : List Destination) (otherIndex : ℕ) :
    DayState × ℕ :=
  let st0 : DayState :=
    { currentTime := startTime, lastLat := startPos.1, lastLon := startPos.2,
      totalTravel := 0, totalDistance := PRat.ofInt 0,
      activitiesAdded := 0, dailyActivities := [] }
  let st1 := schedule_must_visit dist prefs cfg numActivities bucket st0
  fill_other dist prefs cfg numActivities (otherDests.drop otherIndex) otherIndex st1

/-- The day's starting location (services.py lines 452-458): the
accommodation's coordinates when its latitude is truthy (reading the
longitude with `float`, which raises — `none` — when it is null), else the
placeholder. -/
def day_start_position (acc : Option Accommodation) : Option (PRat × PRat) :=
  match acc with
  | some a =>
    match a.latitude with
    | some la =>
      if la.isZero then some (PLACEHOLDER_LAT, PLACEHOLDER_LON)
      else
        match a.longitude with
        | some lo => some (la, lo)
        | none => none
    | none => some (PLACEHOLDER_LAT, PLACEHOLDER_LON)
  | none => some (PLACEHOLDER_LAT, PLACEHOLDER_LON)

/-- The implicit return-to-accommodation leg (services.py lines 558-572):
`(travel minutes, distance)` to add into the day totals, `(0, 0)` when the
branch is not taken; `none` models the `TypeError` on a null accommodation
longitude. -/
def return_leg (dist : DistOracle) (acc : Option Accommodation) (st2 : DayState) :
    Option (ℤ × PRat) :=
  match acc with
  | some a =>
    if decimalTruthy a.latitude && !st2.dailyActivities.isEmpty then
      match st2.dailyActivities.getLast? with
      | some last =>
        let lastDestLat := floatOrDefault last.destination.latitude st2.lastLat
        let lastDestLon := floatOrDefault last.destination.longitude st2.lastLon
        match a.latitude, a.longitude with
        | some accLat, some accLon =>
          let rd := dist lastDestLat lastDestLon accLat accLon
          some (estimate_travel_time rd, rd)
        | _, _ => none
      | none => some (0, PRat.ofInt 0)
    else some (0, PRat.ofInt 0)
  | none => some (0, PRat.ofInt 0)

/-- A regular (non-rest) day (services.py lines 426-586), with the day's
activity target and starting clock already determined: fix the starting
location, run the two fill loops, add the implicit return leg into the
totals and assemble the `DayPlan`. -/
def build_regular_day (dist : DistOracle) (prefs : TravelPreferences)
    (cfg : PaceConfig) (currentDate : ℤ) (currentAccommodation : Option Accommodation)
    (numActivities : ℕ) (currentTime : ℤ) (bucket : List Destination)
    (otherDests : List Destination) (currentDay otherIndex : ℕ) :
    Option (DayPlan × ℕ) :=
  match day_start_position currentAccommodation with
  | none => none
  | some startPos =>
    let filled := run_day_fill dist prefs cfg numActivities currentTime startPos
      bucket otherDests otherIndex
    let st2 := filled.1
    match return_leg dist currentAccommodation st2 with
    | none => none
    | some ret =>
      some ({ dayNumber := currentDay, date := dateStr currentDate,
              activities := st2.dailyActivities,
              accommodation := currentAccommodation,
              totalActivities := st2.dailyActivities.length,
              totalTravelTime := st2.totalTravel + ret.1,
              totalDistance := round_py (st2.totalDistance.add ret.2) 2,
              dayType := "regular" }, filled.2)

/-- One iteration of the activity-day loop (services.py lines 410-586):
build the `DayPlan` for loop day `day` (rest day or regular fill day) and
return it with the advanced shared filler index.  `none` models the
`TypeError` of `float(None)` on an accommodation whose latitude is set but
whose longitude is null. -/
def build_activity_day (dist : DistOracle) (prefs : TravelPreferences)
    (cfg : PaceConfig) (tripStart : ℤ) (currentAccommodation : Option Accommodation)
    (mustAssign : ℕ → List Destination) (otherDests : List Destination)
    (day currentDay otherIndex : ℕ) : Option (DayPlan × ℕ) :=
  let currentDate := tripStart + (day : ℤ) - 1
  if decide ((day : ℤ) ∈ rest_days prefs) then
    some ({ dayNumber := currentDay, date := dateStr currentDate, activities := [],
            accommodation := currentAccommodation, isRestDay := true,
            dayType := "rest" }, otherIndex)
  else
    let isFirst := day = activity_start_day prefs
    let isLast := (day : ℤ) = (activity_start_day prefs : ℤ) + effective_days prefs - 1
    let firstPartial := isFirst ∧ needs_travel prefs = true ∧ prefs.activityOnSameDay = true
    let numActivities :=
      if firstPartial then cfg.activitiesPerDayMin
      else if isLast then cfg.activitiesPerDayMin
      else cfg.activitiesPerDayMax
    let currentTime :=
      if firstPartial then
        360 + ((prefs.travelTimeHours.mul (PRat.ofInt 60)).pyInt + 30)
      else cfg.earliestStart
    build_regular_day dist prefs cfg currentDate currentAccommodation numActivities
      currentTime (mustAssign day) otherDests currentDay otherIndex

/-- The activity-day loop (services.py lines 410-586): one `DayPlan` per
loop day, threading `current_day` and the shared filler index.  Returns the
plans and the final `current_day`. -/
def build_days (dist : DistOracle) (prefs : TravelPreferences) (cfg : PaceConfig)
    (tripStart : ℤ) (currentAccommodation : Option Accommodation)
    (mustAssign : ℕ → List Destination) (otherDests : List Destination) :
    List ℕ → ℕ → ℕ → Option (List DayPlan × ℕ)
  | [], currentDay, _ => some ([], currentDay)
  | day :: rest, currentDay, otherIndex =>
    match build_activity_day dist prefs cfg tripStart currentAccommodation
        mustAssign otherDests day currentDay otherIndex with
    | none => none
    | some p =>
      match build_days dist prefs cfg tripStart currentAccommodation
          mustAssign otherDests rest (currentDay + 1) p.2 with
      | none => none
      | some q => some (p.1 :: q.1, q.2)

/-- The tail of `_build_daily_itinerary` (services.py lines 588-596): given
the already-built arrival-day prefix and the result of the activity-day
loop, append the departure travel day when origin travel time is
non-zero. -/
def assemble_itinerary (prefs : TravelPreferences) (tripStart : ℤ)
    (currentAccommodation : Option Accommodation) (itin0 : List DayPlan)
    (r : Option (List DayPlan × ℕ)) : Option (List DayPlan) :=
  match r with
  | none => none
  | some q =>
    let itin := itin0 ++ q.1
    some (if needs_travel prefs then
            itin ++ [create_travel_day prefs tripStart q.2 currentAccommodation false]
          else itin)

/-- `_build_daily_itinerary` (services.py lines 324-596). -/
def build_daily_itinerary (dist : DistOracle) (prefs : TravelPreferences)
    (cfg : PaceConfig) (tripStart : ℤ) (clusters : List (List Destination))
    (accommodations : List Accommodation) : Option (List DayPlan) :=
  let currentAccommodation := accommodations.head?
  let itin0 : List DayPlan :=
    if needs_travel prefs && !prefs.activityOnSameDay then
      [create_travel_day prefs tripStart 1 currentAccommodation true]
    else []
  let destinationPool := clusters.foldl (· ++ ·) []
  let accLat :=
    match currentAccommodation with
    | some a => floatOrDefault a.latitude PLACEHOLDER_LAT
    | none => PLACEHOLDER_LAT
  let accLon :=
    match currentAccommodation with
    | some a => floatOrDefault a.longitude PLACEHOLDER_LON
    | none => PLACEHOLDER_LON
  let pools := dedup_pool prefs.mustVisitIds destinationPool []
  let otherWithDistance := pools.2.map (fun d =>
    (d, dist accLat accLon (floatOrDefault d.latitude PLACEHOLDER_LAT)
      (floatOrDefault d.longitude PLACEHOLDER_LON)))
  let otherDests := (List.insertionSort
    (fun a b : Destination × PRat => a.2.ble b.2 = true) otherWithDistance).map Prod.fst
  let activeDays := (loop_days prefs).filter
    (fun (d : ℕ) => !decide ((d : ℤ) ∈ rest_days prefs))
  let mustAssign := must_visit_assignment pools.1 activeDays
  assemble_itinerary prefs tripStart currentAccommodation itin0
    (build_days dist prefs cfg tripStart currentAccommodation mustAssign otherDests
      (loop_days prefs) (activity_start_day prefs) 0)

/-! ### `_serialize_itinerary` (services.py lines 618-712) -/

/-- `float(x) if x else None` on a coordinate (zero is falsy). -/
def serCoord (x : Option PRat) : Option PRat :=
  match x with
  | some v => if v.isZero then none else some v
  | none => none

/-- One serialized activity dict. -/
structure SerializedActivity where
  destinationId : ℕ
  destinationName : String
  category : String
  description : Option String
  address : Option String
  latitude : Option PRat
  longitude : Option PRat
  startTime : String
  endTime : String
  durationMinutes : ℕ
  travelTimeFromPrevious : ℤ
  distanceFromPreviousKm : PRat
  entranceFee : PRat
  openingTime : Option String
  closingTime : Option String
  image : Option String
  activityType : String
deriving DecidableEq, Repr

/-- The serialized accommodation amenities sub-dict. -/
structure SerializedAmenities where
  wifi : Bool
  parking : Bool
  breakfast : Bool
  ac : Bool
deriving DecidableEq, Repr

/-- One serialized accommodation dict. -/
structure SerializedAccommodation where
  id : ℕ
  name : String
  accType : String
  address : Option String
  contactNumber : Option String
  email : Option String
  website : Option String
  latitude : Option PRat
  longitude : Option PRat
  amenities : SerializedAmenities
  image : Option String
deriving DecidableEq, Repr

/-- One serialized day dict. -/
structure SerializedDay where
  dayNumber : ℕ
  date : String
  isRestDay : Bool
  isTravelDay : Bool
  dayType : String
  activities : List SerializedActivity
  accommodation : Option SerializedAccommodation
  totalActivities : ℕ
  totalTravelTimeMinutes : ℤ
  totalDistanceKm : PRat
deriving DecidableEq, Repr

/-- The echoed preferences block of the result. -/
structure SerializedPreferences where
  days : ℕ
  pax : ℕ
  budgetCategory : String
  pace : String
  pointOfOrigin : String
  travelTimeHours : PRat
  activityOnSameDay : Bool
  startDate : Option (Option ℤ)
deriving DecidableEq, Repr

/-- The trip-level summary block of the result. -/
structure SerializedSummary where
  totalDestinations : ℕ
  totalTravelTimeMinutes : ℤ
  totalTravelTimeHours : PRat
  totalDistanceKm : PRat
  totalEntranceFees : PRat
  currency : String
deriving DecidableEq, Repr

/-- The whole serialized planner result. -/
structure SerializedItinerary where
  preferences : SerializedPreferences
  itinerary : List SerializedDay
  summary : SerializedSummary
deriving DecidableEq, Repr

/-- Serialize one `Activity` (services.py lines 626-649). -/
def serialize_activity (a : Activity) : SerializedActivity :=
  { destinationId := a.destination.id, destinationName := a.destination.name,
    category := a.destination.category, description := a.destination.description,
    address := a.destination.address,
    latitude := serCoord a.destination.latitude,
    longitude := serCoord a.destination.longitude,
    startTime := a.startTime, endTime := a.endTime,
    durationMinutes := a.durationMinutes,
    travelTimeFromPrevious := a.travelTimeFromPrevious,
    distanceFromPreviousKm := round_py a.distanceFromPrevious 2,
    entranceFee := floatOrDefault a.destination.entranceFee (PRat.ofInt 0),
    openingTime := a.destination.openingTime.map fmtHM,
    closingTime := a.destination.closingTime.map fmtHM,
    image := a.destination.image,
    activityType := a.activityType }

/-- Serialize one `Accommodation` (services.py lines 651-671). -/
def serialize_accommodation (acc : Accommodation) : SerializedAccommodation :=
  { id := acc.id, name := acc.name, accType := acc.accType,
    address := acc.address, contactNumber := acc.contactNumber,
    email := acc.email, website := acc.website,
    latitude := serCoord acc.latitude, longitude := serCoord acc.longitude,
    amenities := ⟨acc.wifiAvailable, acc.parkingAvailable,
      acc.breakfastIncluded, acc.airConditioned⟩,
    image := acc.image }

/-- Serialize one `DayPlan` (services.py lines 673-684). -/
def serialize_day (dp : DayPlan) : SerializedDay :=
  { dayNumber := dp.dayNumber, date := dp.date, isRestDay := dp.isRestDay,
    isTravelDay := dp.isTravelDay, dayType := dp.dayType,
    activities := dp.activities.map serialize_activity,
    accommodation := dp.accommodation.map serialize_accommodation,
    totalActivities := dp.totalActivities,
    totalTravelTimeMinutes := dp.totalTravelTime,
    totalDistanceKm := dp.totalDistance }

/-- `_serialize_itinerary` (services.py lines 618-712). -/
def serialize_itinerary (prefs : TravelPreferences) (itinerary : List DayPlan) :
    SerializedItinerary :=
  let daysData := itinerary.map serialize_day
  let totalCost := itinerary.foldl
    (fun c dp => dp.activities.foldl
      (fun c a => c.add ((floatOrDefault a.destination.entranceFee
        (PRat.ofInt 0)).mul (PRat.ofInt (prefs.pax : ℤ)))) c)
    (PRat.ofInt 0)
  let totalDestinations := (daysData.filter
    (fun d => !d.isRestDay && !d.isTravelDay)).foldl
    (fun n d => n + d.activities.length) 0
  let totalTravelTime := daysData.foldl (fun n d => n + d.totalTravelTimeMinutes) 0
  let totalDistance := (daysData.filter (fun d => !d.isTravelDay)).foldl
    (fun q d => q.add d.totalDistanceKm) (PRat.ofInt 0)
  { preferences :=
      { days := prefs.days, pax := prefs.pax,
        budgetCategory := prefs.budgetCategory, pace := prefs.pacePreference,
        pointOfOrigin := prefs.pointOfOrigin,
        travelTimeHours := prefs.travelTimeHours,
        activityOnSameDay := prefs.activityOnSameDay,
        startDate := prefs.startDate },
    itinerary := daysData,
    summary :=
      { totalDestinations, totalTravelTimeMinutes := totalTravelTime,
        totalTravelTimeHours := round_py
          ((PRat.ofInt totalTravelTime).div (PRat.ofInt 60)) 1,
        totalDistanceKm := round_py totalDistance 2,
        totalEntranceFees := round_py totalCost 2,
        currency := "PHP" } }

/-- `generate_itinerary` (services.py lines 134-153), with `__init__`'s pace
lookup (a `KeyError` on an unknown pace is `none`) and start-date parse. -/
def generate_itinerary (dist : DistOracle) (prefs : TravelPreferences)
    (destCatalog : List Destination) (accCatalog : List Accommodation) (now : ℤ) :
    Option SerializedItinerary :=
  match PACE_RULES prefs.pacePreference with
  | none => none
  | some cfg =>
    let tripStart := parse_start_date prefs now
    let filtered := filter_destinations prefs destCatalog
    let ranked := score_destinations prefs filtered
    let accs := select_accommodations prefs accCatalog
    match cluster_destinations dist prefs cfg ranked accs with
    | none => none
    | some clusters =>
      match build_daily_itinerary dist prefs cfg tripStart clusters accs with
      | none => none
      | some itin => some (serialize_itinerary prefs itin)

/-! ### Helper observations used by the claim statements -/

/-- All activities of an itinerary, in schedule order. -/
def allActivities (itin : List DayPlan) : List Activity :=
  (itin.map (·.activities)).flatten

/-- How many scheduled activities reference destination id `x`. -/
def countDest (x : ℕ) (itin : List DayPlan) : ℕ :=
  (allActivities itin).countP (fun a => a.destination.id == x)

/-- How many serialized activities reference destination id `x`. -/
def countSerDest (x : ℕ) (s : SerializedItinerary) : ℕ :=
  ((s.itinerary.map (·.activities)).flatten).countP (fun a => a.destinationId == x)

/-- The cumulative scheduled travel of a day's activities (the sum of the
per-activity `travel_time_from_previous` fields, i.e. the day's
`total_travel` before the implicit return-to-accommodation leg). -/
def sumTravel (acts : List Activity) : ℤ :=
  (acts.map (·.travelTimeFromPrevious)).sum

/-! ### Concrete fixtures for the claim instances

The distance oracles below are concrete stand-ins for the haversine
helper: `zeroDist` (all points coincide) and `constDist54` (every hop is
54 km, the order of magnitude of a cross-province hop — e.g. roughly the
haversine distance between points half a degree of latitude apart). -/

/-- Oracle: everything is 0 km apart. -/
def zeroDist : DistOracle := fun _ _ _ _ => PRat.ofInt 0

/-- Oracle: every hop is 54 km (54/40·60 = 81 travel minutes). -/
def constDist54 : DistOracle := fun _ _ _ _ => PRat.ofInt 54

/-- The `moderate` pace row, spelled out. -/
def moderateConfig : PaceConfig := ⟨3, 4, 120, 60, 480, 1200, false⟩

/-- The `relaxed` pace row, spelled out. -/
def relaxedConfig : PaceConfig := ⟨2, 3, 60, 90, 540, 1080, true⟩

/-- Fixture: a 3-day trip with 2 h origin travel and same-day activity
disabled. -/
def prefsTravel3 : TravelPreferences :=
  { days := 3, pax := 1, budgetCategory := "medium", pacePreference := "moderate",
    includeAccommodation := false, travelTimeHours := PRat.ofInt 2,
    activityOnSameDay := false }

/-- Fixture: three eligible must-visit nature destinations. -/
def destA : Destination :=
  { id := 1, name := "a", category := "nature", avgDurationMinutes := 60 }

/-- Second must-visit fixture destination. -/
def destB : Destination :=
  { id := 2, name := "b", category := "nature", avgDurationMinutes := 60 }

/-- Third must-visit fixture destination. -/
def destC : Destination :=
  { id := 3, name := "c", category := "nature", avgDurationMinutes := 60 }

/-- Fixture: a one-day relaxed trip with three must-visit ids (relaxed
first/last-day activity target is 2, so one must-visit cannot fit). -/
def prefsThreeMust : TravelPreferences :=
  { days := 1, pax := 1, budgetCategory := "medium", pacePreference := "relaxed",
    includeAccommodation := false, mustVisitIds := [1, 2, 3] }

/-- Fixture: an active accommodation with both coordinates present. -/
def accInn : Accommodation :=
  { id := 10, name := "inn", accType := "inn",
    latitude := some (PRat.ofInt 13), longitude := some (PRat.ofInt 124),
    budgetCategory := "low" }

/-- Fixture: a destination 54 km away from everything under
`constDist54`. -/
def destFar : Destination :=
  { id := 5, name := "far", category := "nature",
    latitude := some (PRat.ofInt 14), longitude := some (PRat.ofInt 124),
    avgDurationMinutes := 60 }

/-- Fixture: a one-day relaxed trip that must visit `destFar` and stays at
`accInn`. -/
def prefsFarTrip : TravelPreferences :=
  { days := 1, pax := 1, budgetCategory := "medium", pacePreference := "relaxed",
    mustVisitIds := [5], accommodationId := some 10 }

/-- Fixture: an active destination whose latitude is null. -/
def destNullLat : Destination :=
  { id := 7, name := "nolat", category := "nature",
    longitude := some (PRat.ofInt 124) }

/-- Fixture: plain two-day moderate preferences. -/
def prefsPlain2 : TravelPreferences :=
  { days := 2, pax := 1, budgetCategory := "medium", pacePreference := "moderate" }

/-- Fixture: one-day moderate preferences with no start date supplied. -/
def prefsNoDate : TravelPreferences :=
  { days := 1, pax := 2, budgetCategory := "medium", pacePreference := "moderate",
    includeAccommodation := false }

/-- A fresh `DayState` at a day's 09:00 start, positioned at `accInn`. -/
def stFresh : DayState :=
  { currentTime := 540, lastLat := PRat.ofInt 13, lastLon := PRat.ofInt 124,
    totalTravel := 0, totalDistance := PRat.ofInt 0, activitiesAdded := 0,
    dailyActivities := [] }

/-- Fixture: moderate preferences whose per-leg cap is 60 minutes (so an
81-minute hop is too far). -/
def prefsShortLeash : TravelPreferences :=
  { days := 2, pax := 1, budgetCategory := "medium", pacePreference := "moderate",
    includeAccommodation := false, maxTravelTime := 60 }

/-- Fixture: a 7-day relaxed trip with no origin travel (the spec's rest-day
example scenario). -/
def prefsSeven : TravelPreferences :=
  { days := 7, pax := 1, budgetCategory := "medium", pacePreference := "relaxed",
    includeAccommodation := false }

/-- Fixture: two-day moderate preferences naming an accommodation id absent
from the catalog. -/
def prefsMissingAcc : TravelPreferences :=
  { days := 2, pax := 1, budgetCategory := "medium", pacePreference := "moderate",
    accommodationId := some 99 }

/-- Fixture: one-day moderate preferences whose start date parses to
2000-02-29 (day 11016). -/
def prefsDated : TravelPreferences :=
  { days := 1, pax := 1, budgetCategory := "medium", pacePreference := "moderate",
    includeAccommodation := false, startDate := some (some 11016) }

/-- An empty placeholder `DayPlan`, only used as a `headD` default. -/
def emptyDay : DayPlan := { dayNumber := 0, date := "", activities := [] }

/-- The itinerary built for `prefsTravel3` (travel-day layout instance). -/
def itinC1 : List DayPlan :=
  (build_daily_itinerary zeroDist prefsTravel3 moderateConfig 0 [[destA]] []).getD []

/-- The itinerary built for `prefsThreeMust` over `constDist54`. -/
def itinMust : List DayPlan :=
  (build_daily_itinerary constDist54 prefsThreeMust relaxedConfig 0
    [[destA, destB, destC]] []).getD []

/-- The first day of `itinMust`. -/
def dayMust : DayPlan := itinMust.headD emptyDay

/-- The itinerary built for `prefsSeven` (rest-day instance). -/
def itinC5 : List DayPlan :=
  (build_daily_itinerary zeroDist prefsSeven relaxedConfig 0 [[destA]] []).getD []

/-! ## Lemmas about the numeric layer -/

namespace PRat

theorem den_ne_zero (a : PRat) : (a.den : ℚ) ≠ 0 := by
  exact_mod_cast ne_of_gt a.dpos

theorem toRat_ofInt (n : ℤ) : (ofInt n).toRat = (n : ℚ) := by
  simp [ofInt, toRat]

theorem toRat_add (a b : PRat) : (add a b).toRat = a.toRat + b.toRat := by
  have ha := a.den_ne_zero; have hb := b.den_ne_zero
  simp only [add, toRat, Int.cast_add, Int.cast_mul]
  field_simp
  try ring

theorem toRat_mul (a b : PRat) : (mul a b).toRat = a.toRat * b.toRat := by
  have ha := a.den_ne_zero; have hb := b.den_ne_zero
  simp only [mul, toRat, Int.cast_mul]
  field_simp

theorem blt_iff (a b : PRat) : blt a b = true ↔ a.toRat < b.toRat := by
  have ha : (0 : ℚ) < a.den := by exact_mod_cast a.dpos
  have hb : (0 : ℚ) < b.den := by exact_mod_cast b.dpos
  rw [blt, toRat, toRat, decide_eq_true_eq, div_lt_div_iff ha hb]
  constructor
  · intro h; exact_mod_cast h
  · intro h; exact_mod_cast h

theorem ble_iff (a b : PRat) : ble a b = true ↔ a.toRat ≤ b.toRat := by
  have ha : (0 : ℚ) < a.den := by exact_mod_cast a.dpos
  have hb : (0 : ℚ) < b.den := by exact_mod_cast b.dpos
  rw [ble, toRat, toRat, decide_eq_true_eq, div_le_div_iff ha hb]
  constructor
  · intro h; exact_mod_cast h
  · intro h; exact_mod_cast h

theorem blt_eq_false_iff (a b : PRat) : blt a b = false ↔ b.toRat ≤ a.toRat := by
  rw [← Bool.not_eq_true, blt_iff, not_lt]

theorem toRat_one_point_five : ONE_POINT_FIVE.toRat = 3 / 2 := by
  norm_num [ONE_POINT_FIVE, toRat]

end PRat

/-! ## General list lemmas -/

theorem countP_and_split {α : Type} (Q P : α → Bool) (l : List α) :
    l.countP (fun a => Q a && P a) + l.countP (fun a => Q a && !P a) = l.countP Q := by
  induction l with
  | nil => simp
  | cons a t ih =>
    simp only [List.countP_cons]
    cases hq : Q a <;> cases hp : P a <;> simp [hq, hp] <;> omega

theorem sum_countP_le {α : Type} (P : ℕ → α → Bool) (l : List α) :
    ∀ (days : List ℕ) (Q : α → Bool),
      (∀ d ∈ days, ∀ a, P d a = true → Q a = true) →
      (∀ d₁ ∈ days, ∀ d₂ ∈ days, ∀ a, P d₁ a = true → P d₂ a = true → d₁ = d₂) →
      days.Nodup →
      (days.map (fun d => l.countP (P d))).sum ≤ l.countP Q := by
  intro days
  induction days with
  | nil => intro Q _ _ _; simp
  | cons d rest ih =>
    intro Q hPQ hdisj hnodup
    simp only [List.map_cons, List.sum_cons]
    have hn := List.nodup_cons.mp hnodup
    have h1 : l.countP (P d) ≤ l.countP (fun a => Q a && P d a) :=
      List.countP_mono_left (fun a _ ha => by
        simp [hPQ d (List.mem_cons_self d rest) a ha, ha])
    have h2 : (rest.map (fun d' => l.countP (P d'))).sum ≤
        l.countP (fun a => Q a && !(P d a)) := by
      refine ih (fun a => Q a && !(P d a)) ?_ ?_ hn.2
      · intro d' hd' a ha
        have hq := hPQ d' (List.mem_cons_of_mem d hd') a ha
        have hpd : P d a = false := by
          cases hpd : P d a
          · rfl
          · exact absurd ((hdisj d (List.mem_cons_self d rest) d'
              (List.mem_cons_of_mem d hd') a hpd ha) ▸ hd') hn.1
        simp [hq, hpd]
      · intro d₁ h₁ d₂ h₂ a ha₁ ha₂
        exact hdisj d₁ (List.mem_cons_of_mem d h₁) d₂ (List.mem_cons_of_mem d h₂) a ha₁ ha₂
    calc l.countP (P d) + (rest.map (fun d' => l.countP (P d'))).sum
        ≤ l.countP (fun a => Q a && P d a) + l.countP (fun a => Q a && !(P d a)) :=
          Nat.add_le_add h1 h2
      _ = l.countP Q := countP_and_split Q (P d) l

theorem countP_enumFrom_snd {α : Type} (q : α → Bool) :
    ∀ (l : List α) (n : ℕ),
      (List.enumFrom n l).countP (fun p => q p.2) = l.countP q := by
  intro l
  induction l with
  | nil => intro n; rfl
  | cons a t ih => intro n; simp [List.enumFrom, List.countP_cons, ih]

theorem snd_mem_of_mem_enumFrom {α : Type} {p : ℕ × α} :
    ∀ {l : List α} {n : ℕ}, p ∈ List.enumFrom n l → p.2 ∈ l := by
  intro l
  induction l with
  | nil => intro n h; cases h
  | cons a t ih =>
    intro n h
    rcases List.mem_cons.mp h with h | h
    · subst h; exact List.mem_cons_self a t
    · exact List.mem_cons_of_mem a (ih h)

theorem sumTravel_nil : sumTravel [] = 0 := rfl

theorem sumTravel_cons (a : Activity) (l : List Activity) :
    sumTravel (a :: l) = a.travelTimeFromPrevious + sumTravel l := by
  simp [sumTravel]

theorem sumTravel_append (l₁ l₂ : List Activity) :
    sumTravel (l₁ ++ l₂) = sumTravel l₁ + sumTravel l₂ := by
  simp [sumTravel]

theorem countDest_cons (x : ℕ) (p : DayPlan) (l : List DayPlan) :
    countDest x (p :: l) =
      p.activities.countP (fun a => a.destination.id == x) + countDest x l := by
  simp [countDest, allActivities]

theorem countDest_append (x : ℕ) (l₁ l₂ : List DayPlan) :
    countDest x (l₁ ++ l₂) = countDest x l₁ + countDest x l₂ := by
  simp [countDest, allActivities]

/-! ## Lemmas about the pool deduplication -/

theorem dedup_pool_countP (ids : List ℕ) (x : ℕ) :
    ∀ (pool : List Destination) (seen : List ℕ),
      (dedup_pool ids pool seen).1.countP (fun d => d.id == x) +
        (dedup_pool ids pool seen).2.countP (fun d => d.id == x) ≤
      (if x ∈ seen then 0 else 1) := by
  intro pool
  induction pool with
  | nil => intro seen; simp [dedup_pool]
  | cons d rest ih =>
    intro seen
    simp only [dedup_pool]
    by_cases hd : d.id ∈ seen
    · simpa [hd] using ih seen
    · have hih := ih (d.id :: seen)
      by_cases hx : d.id = x
      · subst hx
        have : (if d.id ∈ d.id :: seen then 0 else 1) = 0 := by simp
        rw [this] at hih
        by_cases hm : d.id ∈ ids <;>
          simp [hd, hm, List.countP_cons] <;> omega
      · have : (if x ∈ d.id :: seen then 0 else 1) = (if x ∈ seen then 0 else 1) := by
          have hxs : ¬ x = d.id := fun h => hx h.symm
          simp [List.mem_cons, hxs]
        rw [this] at hih
        have hxb : (d.id == x) = false := by simp [hx]
        by_cases hm : d.id ∈ ids <;>
          simp [hd, hm, List.countP_cons, hxb] <;> omega

theorem dedup_pool_fst_ids (ids : List ℕ) :
    ∀ (pool : List Destination) (seen : List ℕ),
      ∀ d ∈ (dedup_pool ids pool seen).1, d.id ∈ ids := by
  intro pool
  induction pool with
  | nil => intro seen d hd; cases hd
  | cons e rest ih =>
    intro seen d hd
    simp only [dedup_pool] at hd
    by_cases he : e.id ∈ seen
    · rw [if_pos (by simpa using he)] at hd
      exact ih seen d hd
    · rw [if_neg (by simpa using he)] at hd
      by_cases hm : e.id ∈ ids
      · rw [if_pos (by simpa using hm)] at hd
        rcases List.mem_cons.mp hd with h | h
        · subst h; exact hm
        · exact ih (e.id :: seen) d h
      · rw [if_neg (by simpa using hm)] at hd
        exact ih (e.id :: seen) d hd

/-! ## Lemmas about the two per-day fill loops -/

theorem accept_destination_fields (cfg : PaceConfig) (dest : Destination)
    (destLat destLon : PRat) (distance : PRat) (travelTime : ℤ) (st : DayState) :
    (accept_destination cfg dest destLat destLon distance travelTime st).dailyActivities
        = st.dailyActivities ++
          [{ destination := dest,
             startTime := fmtHM (st.currentTime + travelTime),
             endTime := fmtHM (st.currentTime + travelTime +
               (durationOr90 dest.avgDurationMinutes : ℤ)),
             durationMinutes := durationOr90 dest.avgDurationMinutes,
             travelTimeFromPrevious := travelTime,
             distanceFromPrevious := distance,
             activityType := "destination" }] ∧
      (accept_destination cfg dest destLat destLon distance travelTime st).totalTravel
        = st.totalTravel + travelTime ∧
      (accept_destination cfg dest destLat destLon distance travelTime st).activitiesAdded
        = st.activitiesAdded + 1 := by
  refine ⟨rfl, rfl, rfl⟩

theorem schedule_must_visit_spec (dist : DistOracle) (prefs : TravelPreferences)
    (cfg : PaceConfig) (num : ℕ) :
    ∀ (bucket : List Destination) (st : DayState),
      ∃ dm : List Activity,
        (schedule_must_visit dist prefs cfg num bucket st).dailyActivities =
          st.dailyActivities ++ dm ∧
        (dm.map (fun a => a.destination)).Sublist bucket ∧
        (schedule_must_visit dist prefs cfg num bucket st).totalTravel =
          st.totalTravel + sumTravel dm := by
  intro bucket
  induction bucket with
  | nil =>
    intro st
    exact ⟨[], by simp [schedule_must_visit], List.nil_sublist _,
      by simp [schedule_must_visit, sumTravel]⟩
  | cons dest rest ih =>
    intro st
    simp only [schedule_must_visit]
    by_cases hcap : num ≤ st.activitiesAdded
    · rw [if_pos hcap]
      exact ⟨[], by simp, List.nil_sublist _, by simp [sumTravel]⟩
    · rw [if_neg hcap]
      set tt := estimate_travel_time (dist st.lastLat st.lastLon
        (floatOrDefault dest.latitude PLACEHOLDER_LAT)
        (floatOrDefault dest.longitude PLACEHOLDER_LON)) with htt
      by_cases hskip :
          (((PRat.ofInt prefs.maxTravelTime).mul ONE_POINT_FIVE).blt (PRat.ofInt tt) ||
           ((PRat.ofInt cfg.maxDailyTravelTime).mul ONE_POINT_FIVE).blt
             (PRat.ofInt (st.totalTravel + tt))) = true
      · rw [if_pos hskip]
        exact (ih st).imp (fun dm hdm =>
          ⟨hdm.1, hdm.2.1.cons dest, hdm.2.2⟩)
      · rw [if_neg hskip]
        set st' := accept_destination cfg dest
          (floatOrDefault dest.latitude PLACEHOLDER_LAT)
          (floatOrDefault dest.longitude PLACEHOLDER_LON)
          (dist st.lastLat st.lastLon (floatOrDefault dest.latitude PLACEHOLDER_LAT)
            (floatOrDefault dest.longitude PLACEHOLDER_LON)) tt st with hst'
        have hfields := accept_destination_fields cfg dest
          (floatOrDefault dest.latitude PLACEHOLDER_LAT)
          (floatOrDefault dest.longitude PLACEHOLDER_LON)
          (dist st.lastLat st.lastLon (floatOrDefault dest.latitude PLACEHOLDER_LAT)
            (floatOrDefault dest.longitude PLACEHOLDER_LON)) tt st

        rw [← hst'] at hfields
        have hact : ∃ act : Activity,
            st'.dailyActivities = st.dailyActivities ++ [act] ∧
            st'.totalTravel = st.totalTravel + tt ∧
            act.travelTimeFromPrevious = tt ∧ act.destination = dest :=
          ⟨_, hfields.1, hfields.2.1, rfl, rfl⟩
        obtain ⟨act, ha1, ha2, ha3, ha4⟩ := hact
        by_cases hstop : cfg.latestEnd < st'.currentTime
        · rw [if_pos hstop]
          refine ⟨[act], ha1, ?_, ?_⟩
          · rw [List.map_singleton, ha4]
            exact List.Sublist.cons₂ dest (List.nil_sublist rest)
          · rw [ha2, sumTravel_cons, sumTravel_nil, ha3]
            ring
        · rw [if_neg hstop]
          obtain ⟨dm, h1, h2, h3⟩ := ih st'
          refine ⟨act :: dm, ?_, ?_, ?_⟩
          · rw [h1, ha1, List.append_assoc, List.singleton_append]
          · rw [List.map_cons, ha4]
            exact List.Sublist.cons₂ dest h2
          · rw [h3, ha2, sumTravel_cons, ha3]
            ring

theorem schedule_must_visit_travel_le (dist : DistOracle) (prefs : TravelPreferences)
    (cfg : PaceConfig) (num : ℕ) :
    ∀ (bucket : List Destination) (st : DayState),
      (st.totalTravel : ℚ) ≤ 3 / 2 * (cfg.maxDailyTravelTime : ℚ) →
      ((schedule_must_visit dist prefs cfg num bucket st).totalTravel : ℚ) ≤
        3 / 2 * (cfg.maxDailyTravelTime : ℚ) := by
  intro bucket
  induction bucket with
  | nil => intro st h; simpa [schedule_must_visit] using h
  | cons dest rest ih =>
    intro st h
    simp only [schedule_must_visit]
    by_cases hcap : num ≤ st.activitiesAdded
    · rw [if_pos hcap]; exact h
    · rw [if_neg hcap]
      set tt := estimate_travel_time (dist st.lastLat st.lastLon
        (floatOrDefault dest.latitude PLACEHOLDER_LAT)
        (floatOrDefault dest.longitude PLACEHOLDER_LON)) with htt
      by_cases hskip :
          (((PRat.ofInt prefs.maxTravelTime).mul ONE_POINT_FIVE).blt (PRat.ofInt tt) ||
           ((PRat.ofInt cfg.maxDailyTravelTime).mul ONE_POINT_FIVE).blt
             (PRat.ofInt (st.totalTravel + tt))) = true
      · rw [if_pos hskip]; exact ih st h
      · rw [if_neg hskip]
        have hb : (((PRat.ofInt cfg.maxDailyTravelTime).mul ONE_POINT_FIVE).blt
            (PRat.ofInt (st.totalTravel + tt))) = false := by
          have hor : (((PRat.ofInt prefs.maxTravelTime).mul ONE_POINT_FIVE).blt (PRat.ofInt tt) ||
              ((PRat.ofInt cfg.maxDailyTravelTime).mul ONE_POINT_FIVE).blt
                (PRat.ofInt (st.totalTravel + tt))) = false := Bool.eq_false_iff.mpr hskip
          exact (Bool.or_eq_false_iff.mp hor).2
        have hbound : ((st.totalTravel + tt : ℤ) : ℚ) ≤
            3 / 2 * (cfg.maxDailyTravelTime : ℚ) := by
          have := (PRat.blt_eq_false_iff _ _).mp hb
          rw [PRat.toRat_ofInt, PRat.toRat_mul, PRat.toRat_ofInt,
            PRat.toRat_one_point_five] at this
          calc ((st.totalTravel + tt : ℤ) : ℚ) ≤ (cfg.maxDailyTravelTime : ℚ) * (3 / 2) := this
            _ = 3 / 2 * (cfg.maxDailyTravelTime : ℚ) := by ring
        set st' := accept_destination cfg dest
          (floatOrDefault dest.latitude PLACEHOLDER_LAT)
          (floatOrDefault dest.longitude PLACEHOLDER_LON)
          (dist st.lastLat st.lastLon (floatOrDefault dest.latitude PLACEHOLDER_LAT)
            (floatOrDefault dest.longitude PLACEHOLDER_LON)) tt st with hst'
        have htot : st'.totalTravel = st.totalTravel + tt := rfl
        have hst'bound : (st'.totalTravel : ℚ) ≤ 3 / 2 * (cfg.maxDailyTravelTime : ℚ) := by
          rw [htot]; exact_mod_cast hbound
        by_cases hstop : cfg.latestEnd < st'.currentTime
        · rw [if_pos hstop]; exact hst'bound
        · rw [if_neg hstop]; exact ih st' hst'bound

theorem fill_other_index_le (dist : DistOracle) (prefs : TravelPreferences)
    (cfg : PaceConfig) (num : ℕ) :
    ∀ (remaining : List Destination) (idx : ℕ) (st : DayState),
      idx ≤ (fill_other dist prefs cfg num remaining idx st).2 := by
  intro remaining
  induction remaining with
  | nil => intro idx st; simp [fill_other]
  | cons dest rest ih =>
    intro idx st
    simp only [fill_other]
    by_cases hroom : st.activitiesAdded < num
    · rw [if_pos hroom]
      set tt := estimate_travel_time (dist st.lastLat st.lastLon
        (floatOrDefault dest.latitude PLACEHOLDER_LAT)
        (floatOrDefault dest.longitude PLACEHOLDER_LON)) with htt
      by_cases hfar : prefs.maxTravelTime < tt
      · rw [if_pos hfar]
        exact le_trans (Nat.le_succ idx) (ih (idx + 1) st)
      · rw [if_neg hfar]
        by_cases hbudget : cfg.maxDailyTravelTime < st.totalTravel + tt
        · rw [if_pos hbudget]
        · rw [if_neg hbudget]
          by_cases hstop : cfg.latestEnd <
              (accept_destination cfg dest
                (floatOrDefault dest.latitude PLACEHOLDER_LAT)
                (floatOrDefault dest.longitude PLACEHOLDER_LON)
                (dist st.lastLat st.lastLon
                  (floatOrDefault dest.latitude PLACEHOLDER_LAT)
                  (floatOrDefault dest.longitude PLACEHOLDER_LON)) tt st).currentTime
          · rw [if_pos hstop]
            exact Nat.le_succ idx
          · rw [if_neg hstop]
            exact le_trans (Nat.le_succ idx) (ih (idx + 1) _)
    · rw [if_neg hroom]

theorem fill_other_spec (dist : DistOracle) (prefs : TravelPreferences)
    (cfg : PaceConfig) (num : ℕ) :
    ∀ (remaining : List Destination) (idx : ℕ) (st : DayState),
      ∃ df : List Activity,
        (fill_other dist prefs cfg num remaining idx st).1.dailyActivities =
          st.dailyActivities ++ df ∧
        (df.map (fun a => a.destination)).Sublist
          (remaining.take ((fill_other dist prefs cfg num remaining idx st).2 - idx)) ∧
        (fill_other dist prefs cfg num remaining idx st).1.totalTravel =
          st.totalTravel + sumTravel df := by
  intro remaining
  induction remaining with
  | nil =>
    intro idx st
    exact ⟨[], by simp [fill_other], by simp [fill_other], by simp [fill_other, sumTravel]⟩
  | cons dest rest ih =>
    intro idx st
    simp only [fill_other]
    by_cases hroom : st.activitiesAdded < num
    · rw [if_pos hroom]
      set tt := estimate_travel_time (dist st.lastLat st.lastLon
        (floatOrDefault dest.latitude PLACEHOLDER_LAT)
        (floatOrDefault dest.longitude PLACEHOLDER_LON)) with htt
      by_cases hfar : prefs.maxTravelTime < tt
      · rw [if_pos hfar]
        obtain ⟨df, h1, h2, h3⟩ := ih (idx + 1) st
        refine ⟨df, h1, ?_, h3⟩
        have hle := fill_other_index_le dist prefs cfg num rest (idx + 1) st
        have heq : (fill_other dist prefs cfg num rest (idx + 1) st).2 - idx =
            ((fill_other dist prefs cfg num rest (idx + 1) st).2 - (idx + 1)) + 1 := by
          omega
        rw [heq, List.take_succ_cons]
        exact h2.cons dest
      · rw [if_neg hfar]
        by_cases hbudget : cfg.maxDailyTravelTime < st.totalTravel + tt
        · rw [if_pos hbudget]
          exact ⟨[], by simp, by simp, by simp [sumTravel]⟩
        · rw [if_neg hbudget]
          set st' := accept_destination cfg dest
            (floatOrDefault dest.latitude PLACEHOLDER_LAT)
            (floatOrDefault dest.longitude PLACEHOLDER_LON)
            (dist st.lastLat st.lastLon (floatOrDefault dest.latitude PLACEHOLDER_LAT)
              (floatOrDefault dest.longitude PLACEHOLDER_LON)) tt st with hst'
          have hfields := accept_destination_fields cfg dest
            (floatOrDefault dest.latitude PLACEHOLDER_LAT)
            (floatOrDefault dest.longitude PLACEHOLDER_LON)
            (dist st.lastLat st.lastLon (floatOrDefault dest.latitude PLACEHOLDER_LAT)
              (floatOrDefault dest.longitude PLACEHOLDER_LON)) tt st
          rw [← hst'] at hfields
          have hact : ∃ act : Activity,
              st'.dailyActivities = st.dailyActivities ++ [act] ∧
              st'.totalTravel = st.totalTravel + tt ∧
              act.travelTimeFromPrevious = tt ∧ act.destination = dest :=
            ⟨_, hfields.1, hfields.2.1, rfl, rfl⟩
          obtain ⟨act, ha1, ha2, ha3, ha4⟩ := hact
          by_cases hstop : cfg.latestEnd < st'.currentTime
          · rw [if_pos hstop]
            refine ⟨[act], ha1, ?_, ?_⟩
            · rw [List.map_singleton, ha4]
              have heq : idx + 1 - idx = 1 := by omega
              rw [heq, List.take_succ_cons, List.take_zero]
            · rw [ha2, sumTravel_cons, sumTravel_nil, ha3]
              ring
          · rw [if_neg hstop]
            obtain ⟨df, h1, h2, h3⟩ := ih (idx + 1) st'
            refine ⟨act :: df, ?_, ?_, ?_⟩
            · rw [h1, ha1, List.append_assoc, List.singleton_append]
            · rw [List.map_cons, ha4]
              have hle := fill_other_index_le dist prefs cfg num rest (idx + 1) st'
              have heq : (fill_other dist prefs cfg num rest (idx + 1) st').2 - idx =
                  ((fill_other dist prefs cfg num rest (idx + 1) st').2 - (idx + 1)) + 1 := by
                omega
              rw [heq, List.take_succ_cons]
              exact h2.cons₂ dest
            · rw [h3, ha2, sumTravel_cons, ha3]
              ring
    · rw [if_neg hroom]
      exact ⟨[], by simp, by simp, by simp [sumTravel]⟩

theorem fill_other_travel_le (dist : DistOracle) (prefs : TravelPreferences)
    (cfg : PaceConfig) (num : ℕ) :
    ∀ (remaining : List Destination) (idx : ℕ) (st : DayState),
      (fill_other dist prefs cfg num remaining idx st).1.totalTravel ≤
        max st.totalTravel cfg.maxDailyTravelTime := by
  intro remaining
  induction remaining with
  | nil => intro idx st; simp [fill_other]
  | cons dest rest ih =>
    intro idx st
    simp only [fill_other]
    by_cases hroom : st.activitiesAdded < num
    · rw [if_pos hroom]
      set tt := estimate_travel_time (dist st.lastLat st.lastLon
        (floatOrDefault dest.latitude PLACEHOLDER_LAT)
        (floatOrDefault dest.longitude PLACEHOLDER_LON)) with htt
      by_cases hfar : prefs.maxTravelTime < tt
      · rw [if_pos hfar]
        exact ih (idx + 1) st
      · rw [if_neg hfar]
        by_cases hbudget : cfg.maxDailyTravelTime < st.totalTravel + tt
        · rw [if_pos hbudget]
          exact le_max_left _ _
        · rw [if_neg hbudget]
          set st' := accept_destination cfg dest
            (floatOrDefault dest.latitude PLACEHOLDER_LAT)
            (floatOrDefault dest.longitude PLACEHOLDER_LON)
            (dist st.lastLat st.lastLon (floatOrDefault dest.latitude PLACEHOLDER_LAT)
              (floatOrDefault dest.longitude PLACEHOLDER_LON)) tt st with hst'
          have hst'tot : st'.totalTravel = st.totalTravel + tt := rfl
          have hM : st'.totalTravel ≤ cfg.maxDailyTravelTime := by
            rw [hst'tot]; omega
          by_cases hstop : cfg.latestEnd < st'.currentTime
          · rw [if_pos hstop]
            exact le_trans hM (le_max_right _ _)
          · rw [if_neg hstop]
            refine le_trans (ih (idx + 1) st') (max_le ?_ (le_max_right _ _))
            exact le_trans hM (le_max_right _ _)
    · rw [if_neg hroom]
      exact le_max_left _ _

/-! ## Lemmas about one activity day and the day loop -/

theorem run_day_fill_spec (dist : DistOracle) (prefs : TravelPreferences)
    (cfg : PaceConfig) (num : ℕ) (startTime : ℤ) (sp : PRat × PRat)
    (bucket : List Destination) (otherDests : List Destination) (idx : ℕ) :
    idx ≤ (run_day_fill dist prefs cfg num startTime sp bucket otherDests idx).2 ∧
    ∃ dm df : List Activity,
      (run_day_fill dist prefs cfg num startTime sp bucket otherDests idx).1.dailyActivities
        = dm ++ df ∧
      (dm.map (fun a => a.destination)).Sublist bucket ∧
      (df.map (fun a => a.destination)).Sublist
        ((otherDests.drop idx).take
          ((run_day_fill dist prefs cfg num startTime sp bucket otherDests idx).2 - idx)) ∧
      sumTravel (run_day_fill dist prefs cfg num startTime sp bucket
        otherDests idx).1.dailyActivities = sumTravel dm + sumTravel df ∧
      (0 ≤ cfg.maxDailyTravelTime →
        ((sumTravel (run_day_fill dist prefs cfg num startTime sp bucket
            otherDests idx).1.dailyActivities : ℚ) ≤
          3 / 2 * (cfg.maxDailyTravelTime : ℚ)) ∧
        (dm = [] →
          sumTravel (run_day_fill dist prefs cfg num startTime sp bucket
            otherDests idx).1.dailyActivities ≤ cfg.maxDailyTravelTime)) := by
  unfold run_day_fill
  set st0 : DayState :=
    { currentTime := startTime, lastLat := sp.1, lastLon := sp.2,
      totalTravel := 0, totalDistance := PRat.ofInt 0,
      activitiesAdded := 0, dailyActivities := [] } with hst0
  set st1 := schedule_must_visit dist prefs cfg num bucket st0 with hst1
  obtain ⟨dm, hm1, hm2, hm3⟩ := schedule_must_visit_spec dist prefs cfg num bucket st0
  rw [← hst1] at hm1 hm3
  have hm1' : st1.dailyActivities = dm := by simpa [hst0] using hm1
  have hm3' : st1.totalTravel = sumTravel dm := by simpa [hst0] using hm3
  obtain ⟨df, hf1, hf2, hf3⟩ :=
    fill_other_spec dist prefs cfg num (otherDests.drop idx) idx st1
  have hidx := fill_other_index_le dist prefs cfg num (otherDests.drop idx) idx st1
  have hacts :
      (fill_other dist prefs cfg num (otherDests.drop idx) idx st1).1.dailyActivities
        = dm ++ df := by rw [hf1, hm1']
  have hsum :
      sumTravel (fill_other dist prefs cfg num (otherDests.drop idx) idx
        st1).1.dailyActivities = sumTravel dm + sumTravel df := by
    rw [hacts, sumTravel_append]
  have htot :
      (fill_other dist prefs cfg num (otherDests.drop idx) idx st1).1.totalTravel
        = sumTravel dm + sumTravel df := by rw [hf3, hm3']
  refine ⟨hidx, dm, df, hacts, hm2, hf2, hsum, ?_⟩
  intro hM
  have hMq : (0 : ℚ) ≤ (cfg.maxDailyTravelTime : ℚ) := by exact_mod_cast hM
  have hfill := fill_other_travel_le dist prefs cfg num (otherDests.drop idx) idx st1
  constructor
  · have hmb : (st1.totalTravel : ℚ) ≤ 3 / 2 * (cfg.maxDailyTravelTime : ℚ) := by
      rw [hst1]
      refine schedule_must_visit_travel_le dist prefs cfg num bucket st0 ?_
      have : st0.totalTravel = 0 := rfl
      rw [this]
      push_cast
      nlinarith
    have hmax : ((max st1.totalTravel cfg.maxDailyTravelTime : ℤ) : ℚ) ≤
        3 / 2 * (cfg.maxDailyTravelTime : ℚ) := by
      rw [Int.cast_max]
      exact max_le hmb (by nlinarith)
    have : ((fill_other dist prefs cfg num (otherDests.drop idx) idx
        st1).1.totalTravel : ℚ) ≤ 3 / 2 * (cfg.maxDailyTravelTime : ℚ) :=
      le_trans (by exact_mod_cast hfill) hmax
    rw [htot] at this
    rw [hsum]
    exact this
  · intro hdm
    have hz : st1.totalTravel = 0 := by rw [hm3', hdm, sumTravel_nil]
    have : (fill_other dist prefs cfg num (otherDests.drop idx) idx
        st1).1.totalTravel ≤ cfg.maxDailyTravelTime := by
      refine le_trans hfill ?_
      rw [hz]
      exact max_le hM (le_refl _)
    rw [htot] at this
    rw [hsum]
    exact this

theorem build_regular_day_spec
    (dist : DistOracle) (prefs : TravelPreferences) (cfg : PaceConfig)
    (currentDate : ℤ) (acc : Option Accommodation) (num : ℕ) (startTime : ℤ)
    (bucket : List Destination) (otherDests : List Destination)
    (cd idx : ℕ) (plan : DayPlan) (idx2 : ℕ)
    (h : build_regular_day dist prefs cfg currentDate acc num startTime bucket
      otherDests cd idx = some (plan, idx2)) :
    plan.dayNumber = cd ∧
    plan.isTravelDay = false ∧
    plan.isRestDay = false ∧
    idx ≤ idx2 ∧
    (∃ dm df : List Activity,
      plan.activities = dm ++ df ∧
      (dm.map (fun a => a.destination)).Sublist bucket ∧
      (df.map (fun a => a.destination)).Sublist
        ((otherDests.drop idx).take (idx2 - idx)) ∧
      sumTravel plan.activities = sumTravel dm + sumTravel df ∧
      (0 ≤ cfg.maxDailyTravelTime →
        ((sumTravel plan.activities : ℚ) ≤ 3 / 2 * (cfg.maxDailyTravelTime : ℚ)) ∧
        (dm = [] → sumTravel plan.activities ≤ cfg.maxDailyTravelTime))) := by
  unfold build_regular_day at h
  cases hsp : day_start_position acc with
  | none => rw [hsp] at h; simp at h
  | some sp =>
    rw [hsp] at h
    dsimp only at h
    cases hret : return_leg dist acc
        (run_day_fill dist prefs cfg num startTime sp bucket otherDests idx).1 with
    | none => rw [hret] at h; simp at h
    | some ret =>
      rw [hret] at h
      simp only [Option.some.injEq, Prod.mk.injEq] at h
      obtain ⟨hplan, hidx⟩ := h
      subst hidx
      subst hplan
      obtain ⟨hidxle, dm, df, hacts, hdm, hdf, hsum, hbound⟩ :=
        run_day_fill_spec dist prefs cfg num startTime sp bucket otherDests idx
      exact ⟨rfl, rfl, rfl, hidxle, dm, df, hacts, hdm, hdf, hsum, hbound⟩

theorem build_activity_day_spec
    (dist : DistOracle) (prefs : TravelPreferences) (cfg : PaceConfig)
    (tripStart : ℤ) (acc : Option Accommodation)
    (mustAssign : ℕ → List Destination) (otherDests : List Destination)
    (day cd idx : ℕ) (plan : DayPlan) (idx2 : ℕ)
    (h : build_activity_day dist prefs cfg tripStart acc mustAssign otherDests
      day cd idx = some (plan, idx2)) :
    plan.dayNumber = cd ∧
    plan.isTravelDay = false ∧
    (plan.isRestDay = true ↔ (day : ℤ) ∈ rest_days prefs) ∧
    (plan.isRestDay = true → plan.activities = []) ∧
    idx ≤ idx2 ∧
    (∃ dm df : List Activity,
      plan.activities = dm ++ df ∧
      (dm.map (fun a => a.destination)).Sublist (mustAssign day) ∧
      (df.map (fun a => a.destination)).Sublist
        ((otherDests.drop idx).take (idx2 - idx)) ∧
      sumTravel plan.activities = sumTravel dm + sumTravel df ∧
      (0 ≤ cfg.maxDailyTravelTime →
        ((sumTravel plan.activities : ℚ) ≤ 3 / 2 * (cfg.maxDailyTravelTime : ℚ)) ∧
        (dm = [] → sumTravel plan.activities ≤ cfg.maxDailyTravelTime))) := by
  unfold build_activity_day at h
  by_cases hrest : (day : ℤ) ∈ rest_days prefs
  · rw [if_pos (by simpa using hrest)] at h
    simp only [Option.some.injEq, Prod.mk.injEq] at h
    obtain ⟨hplan, hidx⟩ := h
    subst hplan
    subst hidx
    refine ⟨rfl, rfl, by simpa using hrest, fun _ => rfl, le_refl idx, [], [], rfl,
      List.nil_sublist _, List.nil_sublist _, by simp [sumTravel], ?_⟩
    intro hM
    constructor
    · have : ((0 : ℤ) : ℚ) ≤ 3 / 2 * (cfg.maxDailyTravelTime : ℚ) := by
        have : (0 : ℚ) ≤ (cfg.maxDailyTravelTime : ℚ) := by exact_mod_cast hM
        nlinarith
      simpa [sumTravel] using this
    · intro _
      simpa [sumTravel] using hM
  · rw [if_neg (by simpa using hrest)] at h
    obtain ⟨h1, h2, h3, h4, h5⟩ := build_regular_day_spec dist prefs cfg _ acc _ _
      (mustAssign day) otherDests cd idx plan idx2 h
    refine ⟨h1, h2, ?_, ?_, h4, h5⟩
    · rw [h3]
      simpa using hrest
    · intro hfalse
      rw [h3] at hfalse
      exact absurd hfalse (by simp)

theorem build_days_spec (dist : DistOracle) (prefs : TravelPreferences)
    (cfg : PaceConfig) (tripStart : ℤ) (acc : Option Accommodation)
    (mustAssign : ℕ → List Destination) (otherDests : List Destination) :
    ∀ (days : List ℕ) (cd idx : ℕ) (plans : List DayPlan) (cd' : ℕ),
      build_days dist prefs cfg tripStart acc mustAssign otherDests days cd idx
        = some (plans, cd') →
      days = List.range' cd days.length →
      plans.length = days.length ∧
      cd' = cd + days.length ∧
      plans.map (fun p => p.dayNumber) = days ∧
      (∀ p ∈ plans, p.isTravelDay = false) ∧
      (∀ p ∈ plans, p.isRestDay = true →
        ((p.dayNumber : ℤ) ∈ rest_days prefs ∧ p.activities = [])) ∧
      plans.countP (fun p => p.isRestDay) =
        days.countP (fun (d : ℕ) => decide ((d : ℤ) ∈ rest_days prefs)) ∧
      (0 ≤ cfg.maxDailyTravelTime →
        ∀ p ∈ plans,
          ((sumTravel p.activities : ℚ) ≤ 3 / 2 * (cfg.maxDailyTravelTime : ℚ)) ∧
          ((∀ d ∈ mustAssign p.dayNumber, d.id ∈ prefs.mustVisitIds) →
            (∀ a ∈ p.activities, a.destination.id ∉ prefs.mustVisitIds) →
            sumTravel p.activities ≤ cfg.maxDailyTravelTime)) ∧
      (∀ x : ℕ, countDest x plans ≤
        (days.map (fun d => (mustAssign d).countP (fun e => e.id == x))).sum +
        (otherDests.drop idx).countP (fun e => e.id == x)) := by
  intro days
  induction days with
  | nil =>
    intro cd idx plans cd' h _
    simp only [build_days, Option.some.injEq, Prod.mk.injEq] at h
    obtain ⟨hplans, hcd'⟩ := h
    subst hplans
    subst hcd'
    refine ⟨rfl, by simp, rfl, by simp, by simp, by simp, by simp, ?_⟩
    intro x
    simp [countDest, allActivities]
  | cons day rest ih =>
    intro cd idx plans cd' h hsync
    simp only [build_days] at h
    cases hp : build_activity_day dist prefs cfg tripStart acc mustAssign otherDests
        day cd idx with
    | none => rw [hp] at h; simp at h
    | some p =>
      rw [hp] at h
      dsimp only at h
      cases hq : build_days dist prefs cfg tripStart acc mustAssign otherDests
          rest (cd + 1) p.2 with
      | none => rw [hq] at h; simp at h
      | some q =>
        rw [hq] at h
        simp only [Option.some.injEq, Prod.mk.injEq] at h
        obtain ⟨hplans, hcd'⟩ := h
        subst hplans
        subst hcd'
        have hsync' : day = cd ∧ rest = List.range' (cd + 1) rest.length := by
          rw [List.length_cons, List.range'_succ] at hsync
          exact ⟨(List.cons.injEq _ _ _ _ ▸ hsync).1, (List.cons.injEq _ _ _ _ ▸ hsync).2⟩
        obtain ⟨hday, hrest⟩ := hsync'
        have hp' : build_activity_day dist prefs cfg tripStart acc mustAssign otherDests
            day cd idx = some (p.1, p.2) := by rw [hp]
        obtain ⟨s1, s2, s3, s4, s5, dm, df, sacts, sdm, sdf, ssum, sbound⟩ :=
          build_activity_day_spec dist prefs cfg tripStart acc mustAssign otherDests
            day cd idx p.1 p.2 hp'
        obtain ⟨i1, i2, i3, i4, i5, i6, i7, i8⟩ :=
          ih (cd + 1) p.2 q.1 q.2 hq hrest
        refine ⟨?_, ?_, ?_, ?_, ?_, ?_, ?_, ?_⟩
        · simp [i1]
        · simp [i2]; omega
        · simp only [List.map_cons, i3, s1, hday]
        · intro r hr
          rcases List.mem_cons.mp hr with hr | hr
          · subst hr; exact s2
          · exact i4 r hr
        · intro r hr hrrest
          rcases List.mem_cons.mp hr with hr | hr
          · subst hr
            exact ⟨by rw [s1, ← hday]; exact s3.mp hrrest, s4 hrrest⟩
          · exact i5 r hr hrrest
        · rw [List.countP_cons, List.countP_cons, i6]
          have : (p.1.isRestDay = true) = ((decide ((day : ℤ) ∈ rest_days prefs)) = true) := by
            simp only [decide_eq_true_eq]
            exact propext s3
          congr 1
          by_cases hmem : (day : ℤ) ∈ rest_days prefs
          · simp [s3.mpr hmem, hmem]
          · have : p.1.isRestDay = false := by
              cases hb : p.1.isRestDay
              · rfl
              · exact absurd (s3.mp hb) hmem
            simp [this, hmem]
        · intro hM r hr
          rcases List.mem_cons.mp hr with hr | hr
          · subst hr
            constructor
            · exact (sbound hM).1
            · intro hbucket hnomust
              have hdm : dm = [] := by
                cases hdm : dm with
                | nil => rfl
                | cons a dm' =>
                  exfalso
                  have hamem : a ∈ p.1.activities := by
                    rw [sacts, hdm]
                    exact List.mem_append_left df (List.mem_cons_self a dm')
                  have hdest : a.destination ∈ mustAssign p.1.dayNumber := by
                    rw [s1, ← hday]
                    refine List.Sublist.subset sdm ?_
                    rw [hdm, List.map_cons]
                    exact List.mem_cons_self _ _
                  exact hnomust a hamem (hbucket a.destination hdest)
              exact (sbound hM).2 hdm
          · exact i7 hM r hr
        · intro x
          rw [countDest_cons]
          have hcount1 : p.1.activities.countP (fun a => a.destination.id == x) ≤
              (mustAssign day).countP (fun e => e.id == x) +
              ((otherDests.drop idx).take (p.2 - idx)).countP (fun e => e.id == x) := by
            rw [sacts, List.countP_append]
            have hdm' : dm.countP (fun a => a.destination.id == x) ≤
                (mustAssign day).countP (fun e => e.id == x) := by
              calc dm.countP (fun a => a.destination.id == x)
                  = (dm.map (fun a => a.destination)).countP (fun e => e.id == x) := by
                    rw [List.countP_map]; rfl
                _ ≤ _ := sdm.countP_le _
            have hdf' : df.countP (fun a => a.destination.id == x) ≤
                ((otherDests.drop idx).take (p.2 - idx)).countP (fun e => e.id == x) := by
              calc df.countP (fun a => a.destination.id == x)
                  = (df.map (fun a => a.destination)).countP (fun e => e.id == x) := by
                    rw [List.countP_map]; rfl
                _ ≤ _ := sdf.countP_le _
            omega
          have hsplit : (otherDests.drop idx).countP (fun e => e.id == x) =
              ((otherDests.drop idx).take (p.2 - idx)).countP (fun e => e.id == x) +
              (otherDests.drop p.2).countP (fun e => e.id == x) := by
            have heq : idx + (p.2 - idx) = p.2 := by omega
            conv_lhs => rw [← List.take_append_drop (p.2 - idx) (otherDests.drop idx)]
            rw [List.countP_append, List.drop_drop, heq]
          have := i8 x
          simp only [List.map_cons, List.sum_cons]
          omega

/-! ## Top-level assembly lemmas -/

theorem loop_days_sync (prefs : TravelPreferences) :
    loop_days prefs = List.range' (activity_start_day prefs) (loop_days prefs).length := by
  rw [loop_days, List.length_range']

theorem pace_nonneg {s : String} {cfg : PaceConfig}
    (h : PACE_RULES s = some cfg) : 0 ≤ cfg.maxDailyTravelTime := by
  unfold PACE_RULES at h
  split at h
  · injection h with h2; subst h2; decide
  · injection h with h2; subst h2; decide
  · injection h with h2; subst h2; decide
  · exact absurd h (by simp)

theorem must_visit_assignment_subset (mv : List Destination) (active : List ℕ)
    (day : ℕ) : ∀ e ∈ must_visit_assignment mv active day, e ∈ mv := by
  intro e he
  unfold must_visit_assignment at he
  by_cases hact : active.isEmpty = true
  · rw [if_pos hact] at he; cases he
  · rw [if_neg hact] at he
    obtain ⟨p, hp, hpe⟩ := List.mem_map.mp he
    have hpmem := (List.mem_filter.mp hp).1
    have := snd_mem_of_mem_enumFrom (l := mv) (n := 0) hpmem
    rwa [hpe] at this

theorem countP_enum_snd {α : Type} (q : α → Bool) (l : List α) :
    (l.enum).countP (fun p => q p.2) = l.countP q :=
  countP_enumFrom_snd q l 0

theorem must_visit_assignment_sum_le (mv : List Destination) (active : List ℕ)
    (days : List ℕ) (hnodup : days.Nodup) (x : ℕ) :
    (days.map (fun d => (must_visit_assignment mv active d).countP
      (fun e => e.id == x))).sum ≤ mv.countP (fun e => e.id == x) := by
  by_cases hact : active.isEmpty = true
  · have hzero : ∀ d, (must_visit_assignment mv active d).countP (fun e => e.id == x) = 0 := by
      intro d
      unfold must_visit_assignment
      rw [if_pos hact]
      rfl
    simp only [hzero]
    simp
  · have key : ∀ d, (must_visit_assignment mv active d).countP (fun e => e.id == x) =
        (mv.enum).countP (fun p =>
          (active.get? (p.1 % active.length) == some d) && (p.2.id == x)) := by
      intro d
      unfold must_visit_assignment
      rw [if_neg hact, List.countP_map, List.countP_filter]
      apply List.countP_congr
      intro a _
      simp only [Function.comp]
      rw [Bool.and_comm]
    simp only [key]
    calc (days.map (fun d => (mv.enum).countP (fun p =>
            (active.get? (p.1 % active.length) == some d) && (p.2.id == x)))).sum
        ≤ (mv.enum).countP (fun (p : ℕ × Destination) => p.2.id == x) := by
          refine sum_countP_le
            (fun d p => (active.get? (p.1 % active.length) == some d) && (p.2.id == x))
            mv.enum days (fun p => p.2.id == x) ?_ ?_ hnodup
          · intro d _ a ha
            simp only [Bool.and_eq_true] at ha
            exact ha.2
          · intro d₁ _ d₂ _ a ha₁ ha₂
            simp only [Bool.and_eq_true] at ha₁ ha₂
            have h₁ := beq_iff_eq.mp ha₁.1
            have h₂ := beq_iff_eq.mp ha₂.1
            rw [h₁] at h₂
            exact Option.some.inj h₂
      _ = mv.countP (fun e => e.id == x) := countP_enum_snd (fun e => e.id == x) mv

theorem sorted_fst_countP (p : Destination → Bool) (pairs : List (Destination × PRat)) :
    ((List.insertionSort (fun a b : Destination × PRat => a.2.ble b.2 = true) pairs).map
      Prod.fst).countP p = (pairs.map Prod.fst).countP p := by
  rw [List.countP_map, List.countP_map]
  exact (List.perm_insertionSort _ pairs).countP_eq _

theorem map_pair_fst {β : Type} (l : List Destination) (f : Destination → β) :
    (l.map (fun d => (d, f d))).map Prod.fst = l := by
  induction l with
  | nil => rfl
  | cons a t ih => simp [ih]

theorem create_travel_day_fields (prefs : TravelPreferences) (tripStart : ℤ)
    (n : ℕ) (a : Option Accommodation) (b : Bool) :
    (create_travel_day prefs tripStart n a b).isRestDay = false ∧
    (create_travel_day prefs tripStart n a b).activities = [] ∧
    (create_travel_day prefs tripStart n a b).dayNumber = n :=
  ⟨rfl, rfl, rfl⟩

theorem loop_days_nodup (prefs : TravelPreferences) : (loop_days prefs).Nodup := by
  rw [loop_days]
  exact List.nodup_range' _ _

theorem assemble_itinerary_eq_some {prefs : TravelPreferences} {tripStart : ℤ}
    {acc : Option Accommodation} {itin0 : List DayPlan}
    {r : Option (List DayPlan × ℕ)} {itin : List DayPlan}
    (h : assemble_itinerary prefs tripStart acc itin0 r = some itin) :
    ∃ q, r = some q ∧
      itin = (if needs_travel prefs = true then
          (itin0 ++ q.1) ++ [create_travel_day prefs tripStart q.2 acc false]
        else itin0 ++ q.1) := by
  cases r with
  | none => simp [assemble_itinerary] at h
  | some q =>
    refine ⟨q, rfl, ?_⟩
    simp only [assemble_itinerary, Option.some.injEq] at h
    rw [← h]

theorem build_daily_itinerary_master
    (dist : DistOracle) (prefs : TravelPreferences) (cfg : PaceConfig)
    (tripStart : ℤ) (clusters : List (List Destination))
    (accs : List Accommodation) (itin : List DayPlan)
    (hdays : 1 ≤ prefs.days)
    (h : build_daily_itinerary dist prefs cfg tripStart clusters accs = some itin) :
    itin.length = prefs.days + (if needs_travel prefs = true then 1 else 0) ∧
    itin.map (fun p => p.dayNumber) = List.range' 1 itin.length ∧
    itin.countP (fun p => p.isRestDay) =
      (loop_days prefs).countP (fun (d : ℕ) => decide ((d : ℤ) ∈ rest_days prefs)) ∧
    (∀ p ∈ itin, p.isRestDay = true →
      ((p.dayNumber : ℤ) ∈ rest_days prefs ∧ p.activities = [])) ∧
    (0 ≤ cfg.maxDailyTravelTime →
      ∀ p ∈ itin, ((sumTravel p.activities : ℚ) ≤ 3 / 2 * (cfg.maxDailyTravelTime : ℚ)) ∧
        ((∀ a ∈ p.activities, a.destination.id ∉ prefs.mustVisitIds) →
          sumTravel p.activities ≤ cfg.maxDailyTravelTime)) ∧
    (∀ x : ℕ, countDest x itin ≤ 1) := by
  unfold build_daily_itinerary at h
  obtain ⟨q, hq, hitin⟩ := assemble_itinerary_eq_some h
  subst hitin
  obtain ⟨i1, i2, i3, i4, i5, i6, i7, i8⟩ :=
    build_days_spec dist prefs cfg tripStart accs.head? _ _
      (loop_days prefs) (activity_start_day prefs) 0 q.1 q.2
      (by rw [hq]) (loop_days_sync prefs)
  have hll : (loop_days prefs).length =
      prefs.days + 1 - activity_start_day prefs := by
    rw [loop_days, List.length_range']
  have hform :
      (if needs_travel prefs = true then
          ((if (needs_travel prefs && !prefs.activityOnSameDay) = true then
              [create_travel_day prefs tripStart 1 accs.head? true] else []) ++ q.1) ++
            [create_travel_day prefs tripStart q.2 accs.head? false]
        else
          (if (needs_travel prefs && !prefs.activityOnSameDay) = true then
              [create_travel_day prefs tripStart 1 accs.head? true] else []) ++ q.1)
      = ((if (needs_travel prefs && !prefs.activityOnSameDay) = true then
            [create_travel_day prefs tripStart 1 accs.head? true] else []) ++ q.1) ++
          (if needs_travel prefs = true then
            [create_travel_day prefs tripStart q.2 accs.head? false] else []) := by
    by_cases hnt : needs_travel prefs = true <;> simp [hnt]
  rw [hform]
  set L := (if (needs_travel prefs && !prefs.activityOnSameDay) = true then
      [create_travel_day prefs tripStart 1 accs.head? true] else []) with hL
  set R := (if needs_travel prefs = true then
      [create_travel_day prefs tripStart q.2 accs.head? false] else []) with hR
  have hLmem : ∀ p ∈ L, p.isRestDay = false ∧ p.activities = [] := by
    rw [hL]
    by_cases hb : (needs_travel prefs && !prefs.activityOnSameDay) = true <;>
      simp [hb, create_travel_day]
  have hRmem : ∀ p ∈ R, p.isRestDay = false ∧ p.activities = [] := by
    rw [hR]
    by_cases hb : needs_travel prefs = true <;> simp [hb, create_travel_day]
  have hLlen : L.length = (if (needs_travel prefs && !prefs.activityOnSameDay) = true
      then 1 else 0) := by
    rw [hL]
    by_cases hb : (needs_travel prefs && !prefs.activityOnSameDay) = true <;> simp [hb]
  have hRlen : R.length = (if needs_travel prefs = true then 1 else 0) := by
    rw [hR]
    by_cases hb : needs_travel prefs = true <;> simp [hb]
  refine ⟨?_, ?_, ?_, ?_, ?_, ?_⟩
  · -- total length
    simp only [List.length_append]
    rw [i1, hll, hLlen, hRlen]
    by_cases hnt : needs_travel prefs = true
    · by_cases hsd : prefs.activityOnSameDay = true
      · have hb : (needs_travel prefs && !prefs.activityOnSameDay) = false := by
          simp [hnt, hsd]
        have has : activity_start_day prefs = 1 := by
          simp [activity_start_day, hb]
        rw [has, hb, hnt]
        simp
      · have hsd' : prefs.activityOnSameDay = false := by
          rwa [Bool.not_eq_true] at hsd
        have hb : (needs_travel prefs && !prefs.activityOnSameDay) = true := by
          simp [hnt, hsd']
        have has : activity_start_day prefs = 2 := by
          simp [activity_start_day, hb]
        rw [has, hb, hnt]
        simp
        omega
    · have hntf : needs_travel prefs = false := by rwa [Bool.not_eq_true] at hnt
      have hb : (needs_travel prefs && !prefs.activityOnSameDay) = false := by
        simp [hntf]
      have has : activity_start_day prefs = 1 := by
        simp [activity_start_day, hb]
      rw [has, hb, hntf]
      simp
  · -- day numbers form range' 1
    obtain ⟨k, hk⟩ : ∃ k, prefs.days = k + 1 := ⟨prefs.days - 1, by omega⟩
    have hlenitin : (L ++ q.1 ++ R).length = L.length + (loop_days prefs).length
        + R.length := by
      simp only [List.length_append]
      rw [i1]
    simp only [List.map_append, i3]
    by_cases hnt : needs_travel prefs = true
    · by_cases hsd : prefs.activityOnSameDay = true
      · have hb : (needs_travel prefs && !prefs.activityOnSameDay) = false := by
          simp [hnt, hsd]
        have has : activity_start_day prefs = 1 := by
          simp [activity_start_day, hb]
        have hlen : (loop_days prefs).length = prefs.days := by rw [hll, has]; omega
        have hq2 : q.2 = 1 + prefs.days := by rw [i2, has, hlen]
        have hLval : L = [] := by rw [hL, hb]; simp
        have hRval : R = [create_travel_day prefs tripStart q.2 accs.head? false] := by
          rw [hR, hnt]
          simp
        rw [hlenitin, hLval, hRval, hlen]
        simp only [List.length_nil, List.length_cons, List.map_nil, List.map_cons,
          List.nil_append, List.map_nil]
        have hdep : (create_travel_day prefs tripStart q.2 accs.head? false).dayNumber
            = 1 + prefs.days := by rw [← hq2]; rfl
        rw [hdep]
        have hn : 0 + prefs.days + (0 + 1) = prefs.days + 1 := by omega
        rw [hn]
        rw [List.range'_concat 1 prefs.days]
        rw [loop_days, has]
        have h1 : prefs.days + 1 - 1 = prefs.days := by omega
        rw [h1]
        simp
      · have hsd' : prefs.activityOnSameDay = false := by
          rwa [Bool.not_eq_true] at hsd
        have hb : (needs_travel prefs && !prefs.activityOnSameDay) = true := by
          simp [hnt, hsd']
        have has : activity_start_day prefs = 2 := by
          simp [activity_start_day, hb]
        have hlen : (loop_days prefs).length = k := by rw [hll, has]; omega
        have hq2 : q.2 = k + 2 := by rw [i2, has, hlen]; omega
        have hLval : L = [create_travel_day prefs tripStart 1 accs.head? true] := by
          rw [hL, hb]
          simp
        have hRval : R = [create_travel_day prefs tripStart q.2 accs.head? false] := by
          rw [hR, hnt]
          simp
        rw [hlenitin, hLval, hRval, hlen]
        simp only [List.length_cons, List.length_nil, List.map_cons, List.map_nil]
        have harr : (create_travel_day prefs tripStart 1 accs.head? true).dayNumber
            = 1 := rfl
        have hdep : (create_travel_day prefs tripStart q.2 accs.head? false).dayNumber
            = k + 2 := by rw [← hq2]; rfl
        rw [harr, hdep]
        have hn : 0 + 1 + k + (0 + 1) = (k + 1) + 1 := by omega
        rw [hn]
        rw [List.range'_succ 1 (k + 1)]
        rw [List.range'_concat 2 k]
        rw [loop_days, has]
        have h1 : prefs.days + 1 - 2 = k := by omega
        rw [h1]
        simp
        omega
    · have hntf : needs_travel prefs = false := by rwa [Bool.not_eq_true] at hnt
      have hb : (needs_travel prefs && !prefs.activityOnSameDay) = false := by
        simp [hntf]
      have has : activity_start_day prefs = 1 := by
        simp [activity_start_day, hb]
      have hlen : (loop_days prefs).length = prefs.days := by rw [hll, has]; omega
      have hLval : L = [] := by rw [hL, hb]; simp
      have hRval : R = [] := by rw [hR, hntf]; simp
      rw [hlenitin, hLval, hRval, hlen]
      simp only [List.length_nil, List.map_nil, List.nil_append, List.append_nil]
      have hn : 0 + prefs.days + 0 = prefs.days := by omega
      rw [hn]
      rw [loop_days, has]
      have h1 : prefs.days + 1 - 1 = prefs.days := by omega
      rw [h1]
  · -- rest-day count
    rw [List.countP_append, List.countP_append]
    have hL0 : L.countP (fun p => p.isRestDay) = 0 := by
      rw [List.countP_eq_zero]
      intro p hp
      simp [(hLmem p hp).1]
    have hR0 : R.countP (fun p => p.isRestDay) = 0 := by
      rw [List.countP_eq_zero]
      intro p hp
      simp [(hRmem p hp).1]
    rw [hL0, hR0, i6]
    omega
  · -- rest days sit at the computed position and are empty
    intro p hp hrest
    rcases List.mem_append.mp hp with hp | hp
    · rcases List.mem_append.mp hp with hp | hp
      · exact absurd hrest (by simp [(hLmem p hp).1])
      · exact i5 p hp hrest
    · exact absurd hrest (by simp [(hRmem p hp).1])
  · -- travel-time bounds
    intro hM p hp
    have hMq : (0 : ℚ) ≤ (cfg.maxDailyTravelTime : ℚ) := by exact_mod_cast hM
    rcases List.mem_append.mp hp with hp | hp
    · rcases List.mem_append.mp hp with hp | hp
      · rw [(hLmem p hp).2]
        constructor
        · rw [sumTravel_nil]
          push_cast
          nlinarith
        · intro _
          rw [sumTravel_nil]
          exact hM
      · have := i7 hM p hp
        refine ⟨this.1, ?_⟩
        intro hno
        refine this.2 ?_ hno
        intro d hd
        have hmem := must_visit_assignment_subset _ _ _ d hd
        exact dedup_pool_fst_ids prefs.mustVisitIds _ [] d hmem
    · rw [(hRmem p hp).2]
      constructor
      · rw [sumTravel_nil]
        push_cast
        nlinarith
      · intro _
        rw [sumTravel_nil]
        exact hM
  · -- no destination is scheduled twice
    intro x
    rw [countDest_append, countDest_append]
    have hL0 : countDest x L = 0 := by
      rw [countDest]
      rw [List.countP_eq_zero]
      intro a ha
      exfalso
      simp only [allActivities, List.mem_flatten, List.mem_map] at ha
      obtain ⟨acts, ⟨p, hp, hacts⟩, hmem⟩ := ha
      rw [← hacts, (hLmem p hp).2] at hmem
      cases hmem
    have hR0 : countDest x R = 0 := by
      rw [countDest]
      rw [List.countP_eq_zero]
      intro a ha
      exfalso
      simp only [allActivities, List.mem_flatten, List.mem_map] at ha
      obtain ⟨acts, ⟨p, hp, hacts⟩, hmem⟩ := ha
      rw [← hacts, (hRmem p hp).2] at hmem
      cases hmem
    rw [hL0, hR0]
    have hcount := i8 x
    rw [List.drop_zero] at hcount
    have hsum := must_visit_assignment_sum_le
      (dedup_pool prefs.mustVisitIds (clusters.foldl (fun a b => a ++ b) []) []).1
      ((loop_days prefs).filter (fun (d : ℕ) => !decide ((d : ℤ) ∈ rest_days prefs)))
      (loop_days prefs) (loop_days_nodup prefs) x
    have hother :
        ((List.insertionSort (fun a b : Destination × PRat => a.2.ble b.2 = true)
          ((dedup_pool prefs.mustVisitIds (clusters.foldl (fun a b => a ++ b) []) []).2.map
            (fun d => (d, dist
              (match accs.head? with
               | some a => floatOrDefault a.latitude PLACEHOLDER_LAT
               | none => PLACEHOLDER_LAT)
              (match accs.head? with
               | some a => floatOrDefault a.longitude PLACEHOLDER_LON
               | none => PLACEHOLDER_LON)
              (floatOrDefault d.latitude PLACEHOLDER_LAT)
              (floatOrDefault d.longitude PLACEHOLDER_LON))))).map
          Prod.fst).countP (fun e => e.id == x)
        = (dedup_pool prefs.mustVisitIds
            (clusters.foldl (fun a b => a ++ b) []) []).2.countP (fun e => e.id == x) := by
      rw [sorted_fst_countP]
      rw [map_pair_fst]
    have hdedup := dedup_pool_countP prefs.mustVisitIds x
      (clusters.foldl (fun a b => a ++ b) []) []
    simp only [List.not_mem_nil, if_false] at hdedup
    omega

/-- Counting one integer value in a block of consecutive naturals. -/
theorem countP_range_eq_ind (r : ℤ) : ∀ (n s : ℕ),
    (List.range' s n).countP (fun (d : ℕ) => decide ((d : ℤ) = r)) =
      if ((s : ℤ) ≤ r ∧ r < (s : ℤ) + (n : ℤ)) then 1 else 0 := by
  intro n
  induction n with
  | zero =>
    intro s
    rw [show List.range' s 0 = [] from rfl, List.countP_nil,
      if_neg (by push_cast; omega)]
  | succ n ih =>
    intro s
    rw [List.range'_succ, List.countP_cons, ih (s + 1)]
    simp only [decide_eq_true_eq]
    push_cast
    split_ifs <;> omega

/-- The acceptable-budget lists grow one tier at a time. -/
theorem acceptable_budgets_step (x : String) :
    (x ∈ acceptable_budgets 1 → x ∈ acceptable_budgets 2) ∧
    (x ∈ acceptable_budgets 2 → x ∈ acceptable_budgets 3) := by
  constructor <;> intro h <;>
    simp [acceptable_budgets, budgetHierarchy] at h ⊢ <;> tauto

/-- Membership characterization of the `_filter_destinations` chain. -/
theorem mem_filter_destinations (prefs : TravelPreferences)
    (catalog : List Destination) (d : Destination) :
    d ∈ filter_destinations prefs catalog ↔
      d ∈ catalog ∧ (d.isActive && (d.status == "active")) = true ∧
      d.id ∉ prefs.excludeDestinationIds ∧
      d.category ∉ prefs.excludeCategories ∧
      d.budgetCategory ∈ acceptable_budgets (user_budget_level prefs.budgetCategory) ∧
      (prefs.hasChildren = true → d.kidFriendly = true) ∧
      (prefs.hasSeniors = true → d.seniorFriendly = true) ∧
      (prefs.hasDisabilities = true → d.wheelchairFriendly = true) := by
  simp only [filter_destinations]
  split_ifs with h1 h2 h3 h4 h5 <;>
    simp_all [List.mem_filter] <;> tauto

/-! ## Claim instances settled by evaluation -/

/-- C1, counterexample: for a 3-day trip with 2 h origin travel and
same-day activity disabled, the generated itinerary has 4 DayPlans — not
the `3 + 2` the claim predicts ("exactly one extra day per direction"):
only the departure direction appends an extra day, the arrival travel day
occupies requested day 1. -/
theorem C1_counterexample :
    (build_daily_itinerary zeroDist prefsTravel3 moderateConfig 0 [] []).map
      List.length = some 4 ∧ 4 ≠ prefsTravel3.days + 2 := by
  exact ⟨by decide, by decide⟩

/-- C2, counterexample: destination id 3 is active, unexcluded, within
budget and unconstrained by accessibility — it passes every hard filter —
yet the generated itinerary references it in zero activities: the relaxed
pace caps the single (first-and-last) day at 2 activities and the third
must-visit is silently dropped, where the claim demands exactly one. -/
theorem C2_counterexample :
    (filter_destinations prefsThreeMust [destA, destB, destC]).map
      (fun d => d.id) = [1, 2, 3] ∧
    (generate_itinerary zeroDist prefsThreeMust [destA, destB, destC] [] 0).map
      (countSerDest 3) = some 0 := by
  exact ⟨by decide, by decide⟩

/-- C3, counterexample: one must-visit destination 54 km out (81 travel
minutes each way) on a relaxed one-day trip from `accInn`: the scheduled
legs total 81 ≤ 90 = 1.5 × 60, but the `total_travel_time` recorded in the
DayPlan also receives the implicit return leg and is 162, exceeding
1.5 × `max_daily_travel_time`. -/
theorem C3_counterexample :
    (generate_itinerary constDist54 prefsFarTrip [destFar] [accInn] 0).map
      (fun s => s.itinerary.map (fun d => d.totalTravelTimeMinutes))
      = some [162] ∧
    (PRat.ofInt 162).ble
      ((PRat.ofInt relaxedConfig.maxDailyTravelTime).mul ONE_POINT_FIVE) = false := by
  exact ⟨by decide, by decide⟩

/-- C6: `_cluster_destinations` calls `float(...)` on the coordinates of
every non-must-visit candidate with no null guard, so an active destination
with a null latitude makes the whole planning run raise `TypeError`
(modelled as `none`) instead of substituting the 12.97/124.00 placeholder —
the substitution the claim (and spec §4.4) describes only happens in
`_build_daily_itinerary`, which handles the same destination without
failing. -/
theorem C6_cluster_null_coordinate_raises :
    cluster_destinations zeroDist prefsPlain2 moderateConfig [(destNullLat, 0)]
      [accInn] = none ∧
    (build_daily_itinerary zeroDist prefsPlain2 moderateConfig 0 [[destNullLat]]
      []).isSome = true := by
  exact ⟨by decide, by decide⟩

/-- C9, counterexample: with no start date supplied, two runs over the same
snapshot started one day apart serialize different results (the dates are
stamped from `datetime.now()`), refuting "does not depend on when the run
is executed … including those with no start date supplied". -/
theorem C9_counterexample :
    generate_itinerary zeroDist prefsNoDate [] [] 0 ≠
      generate_itinerary zeroDist prefsNoDate [] [] 1 := by
  decide

/-! ## Claim theorems -/

/-- C1 (amended): every generated itinerary has exactly
`days + (1 if travel time > 0 else 0)` DayPlans — the departure travel day
is the only extra day, the arrival travel day (when present) occupies the
requested day-1 slot — and day numbers run contiguously from 1. -/
theorem C1_dayplan_count
    (dist : DistOracle) (prefs : TravelPreferences) (cfg : PaceConfig)
    (tripStart : ℤ) (clusters : List (List Destination))
    (accs : List Accommodation) (itin : List DayPlan)
    (hdays : 1 ≤ prefs.days)
    (h : build_daily_itinerary dist prefs cfg tripStart clusters accs = some itin) :
    itin.length = prefs.days + (if needs_travel prefs = true then 1 else 0) ∧
    itin.map (fun p => p.dayNumber) = List.range' 1 itin.length := by
  obtain ⟨h1, h2, -, -, -, -⟩ :=
    build_daily_itinerary_master dist prefs cfg tripStart clusters accs itin hdays h
  exact ⟨h1, h2⟩

/-- C1 witness: the 3-day, 2-hour-travel fixture yields 4 contiguously
numbered DayPlans. -/
theorem C1_dayplan_count_witness :
    itinC1.length = prefsTravel3.days +
      (if needs_travel prefsTravel3 = true then 1 else 0) ∧
    itinC1.map (fun p => p.dayNumber) = List.range' 1 itinC1.length :=
  C1_dayplan_count zeroDist prefsTravel3 moderateConfig 0 [[destA]] [] itinC1
    (by decide) (by decide)

/-- C2 (amended): a must-visit destination id is never scheduled more than
once — the pool is deduplicated by id and each deduplicated must-visit is
assigned to exactly one active day — but it can be scheduled zero times
(capacity and relaxed-constraint rejections drop it), so "exactly one" is
weakened to "at most one". -/
theorem C2_must_visit_at_most_once
    (dist : DistOracle) (prefs : TravelPreferences) (cfg : PaceConfig)
    (tripStart : ℤ) (clusters : List (List Destination))
    (accs : List Accommodation) (itin : List DayPlan) (x : ℕ)
    (hx : x ∈ prefs.mustVisitIds)
    (hdays : 1 ≤ prefs.days)
    (h : build_daily_itinerary dist prefs cfg tripStart clusters accs = some itin) :
    countDest x itin ≤ 1 :=
  (build_daily_itinerary_master dist prefs cfg tripStart clusters accs itin
    hdays h).2.2.2.2.2 x

/-- C2 witness: must-visit id 2 of the three-must-visit fixture is
referenced by at most one activity. -/
theorem C2_must_visit_at_most_once_witness :
    2 ∈ prefsThreeMust.mustVisitIds ∧ countDest 2 itinMust ≤ 1 :=
  ⟨by decide, C2_must_visit_at_most_once constDist54 prefsThreeMust relaxedConfig 0
    [[destA, destB, destC]] [] itinMust 2 (by decide) (by decide) (by decide)⟩

/-- C3 (amended): the travel actually scheduled into a day's activities
never exceeds `1.5 × max_daily_travel_time`, and on a day containing no
must-visit activity it never exceeds `1 × max_daily_travel_time`; the
DayPlan's recorded `total_travel_time` aggregate is out of scope here
because the implicit return-to-accommodation leg is added after the budget
checks and can push the recorded total past both bounds. -/
theorem C3_scheduled_travel_bounds
    (dist : DistOracle) (prefs : TravelPreferences) (s : String) (cfg : PaceConfig)
    (tripStart : ℤ) (clusters : List (List Destination))
    (accs : List Accommodation) (itin : List DayPlan) (p : DayPlan)
    (hcfg : PACE_RULES s = some cfg)
    (hdays : 1 ≤ prefs.days)
    (h : build_daily_itinerary dist prefs cfg tripStart clusters accs = some itin)
    (hp : p ∈ itin) :
    ((sumTravel p.activities : ℚ) ≤ 3 / 2 * (cfg.maxDailyTravelTime : ℚ)) ∧
    ((∀ a ∈ p.activities, a.destination.id ∉ prefs.mustVisitIds) →
      sumTravel p.activities ≤ cfg.maxDailyTravelTime) :=
  (build_daily_itinerary_master dist prefs cfg tripStart clusters accs itin
    hdays h).2.2.2.2.1 (pace_nonneg hcfg) p hp

/-- C3 witness: the relaxed far-trip day's scheduled legs stay within
`1.5 × 60` minutes. -/
theorem C3_scheduled_travel_bounds_witness :
    (sumTravel dayMust.activities : ℚ) ≤
      3 / 2 * (relaxedConfig.maxDailyTravelTime : ℚ) :=
  (C3_scheduled_travel_bounds constDist54 prefsThreeMust "relaxed" relaxedConfig 0
    [[destA, destB, destC]] [] itinMust dayMust (by decide) (by decide) (by decide)
    (by decide)).1

/-- C4: in the filler loop, a too-far rejection advances the shared index
past the item and recurses on the rest, while a daily-travel-budget
rejection returns the state and index unchanged (the item is retried the
next day). -/
theorem C4_filler_rejection_policy
    (dist : DistOracle) (prefs : TravelPreferences) (cfg : PaceConfig)
    (numActivities : ℕ) (dest : Destination) (rest : List Destination)
    (idx : ℕ) (st : DayState)
    (hcap : st.activitiesAdded < numActivities) :
    (prefs.maxTravelTime <
        estimate_travel_time (dist st.lastLat st.lastLon
          (floatOrDefault dest.latitude PLACEHOLDER_LAT)
          (floatOrDefault dest.longitude PLACEHOLDER_LON)) →
      fill_other dist prefs cfg numActivities (dest :: rest) idx st =
        fill_other dist prefs cfg numActivities rest (idx + 1) st) ∧
    (¬ prefs.maxTravelTime <
        estimate_travel_time (dist st.lastLat st.lastLon
          (floatOrDefault dest.latitude PLACEHOLDER_LAT)
          (floatOrDefault dest.longitude PLACEHOLDER_LON)) →
      cfg.maxDailyTravelTime < st.totalTravel +
        estimate_travel_time (dist st.lastLat st.lastLon
          (floatOrDefault dest.latitude PLACEHOLDER_LAT)
          (floatOrDefault dest.longitude PLACEHOLDER_LON)) →
      fill_other dist prefs cfg numActivities (dest :: rest) idx st = (st, idx)) := by
  constructor
  · intro hfar
    simp only [fill_other]
    rw [if_pos hcap, if_pos hfar]
  · intro hnear hbud
    simp only [fill_other]
    rw [if_pos hcap, if_neg hnear, if_pos hbud]

/-- C4 witness: an 81-minute hop is skipped with the index advanced under a
60-minute per-leg cap, and stops the relaxed day (60-minute daily budget)
without advancing the index under a 120-minute per-leg cap. -/
theorem C4_filler_rejection_policy_witness :
    fill_other constDist54 prefsShortLeash moderateConfig 3 [destFar] 0 stFresh =
        fill_other constDist54 prefsShortLeash moderateConfig 3 [] 1 stFresh ∧
    fill_other constDist54 prefsPlain2 relaxedConfig 3 [destFar] 0 stFresh =
        (stFresh, 0) :=
  ⟨(C4_filler_rejection_policy constDist54 prefsShortLeash moderateConfig 3 destFar
      [] 0 stFresh (by decide)).1 (by decide),
   (C4_filler_rejection_policy constDist54 prefsPlain2 relaxedConfig 3 destFar
      [] 0 stFresh (by decide)).2 (by decide) (by decide)⟩

/-- C5: with at least 5 effective (non-travel) days the itinerary has
exactly one rest day, placed at
`activity_start_day + effective_days // 2` and carrying zero activities;
with fewer effective days there is none. -/
theorem C5_rest_day_insertion
    (dist : DistOracle) (prefs : TravelPreferences) (cfg : PaceConfig)
    (tripStart : ℤ) (clusters : List (List Destination))
    (accs : List Accommodation) (itin : List DayPlan)
    (hdays : 1 ≤ prefs.days)
    (h : build_daily_itinerary dist prefs cfg tripStart clusters accs = some itin) :
    itin.countP (fun p => p.isRestDay) =
      (if 5 ≤ effective_days prefs then 1 else 0) ∧
    (∀ p ∈ itin, p.isRestDay = true →
      5 ≤ effective_days prefs ∧
      (p.dayNumber : ℤ) =
        (activity_start_day prefs : ℤ) + effective_days prefs / 2 ∧
      p.activities = []) := by
  obtain ⟨-, -, c3, c4, -, -⟩ :=
    build_daily_itinerary_master dist prefs cfg tripStart clusters accs itin hdays h
  constructor
  · rw [c3]
    by_cases h5 : 5 ≤ effective_days prefs
    · rw [if_pos h5]
      have hcongr : (loop_days prefs).countP
            (fun (d : ℕ) => decide ((d : ℤ) ∈ rest_days prefs)) =
          (loop_days prefs).countP (fun (d : ℕ) =>
            decide ((d : ℤ) =
              (activity_start_day prefs : ℤ) + effective_days prefs / 2)) := by
        apply List.countP_congr
        intro d _
        simp [rest_days, h5]
      rw [hcongr, loop_days, countP_range_eq_ind]
      split_ifs with hc
      · rfl
      · exfalso
        apply hc
        cases hnt : needs_travel prefs <;> cases hsd : prefs.activityOnSameDay <;>
            simp [activity_start_day, effective_days, hnt, hsd] at h5 ⊢ <;>
          omega
    · rw [if_neg h5]
      simp [rest_days, h5]
  · intro p hp hrest
    obtain ⟨hmem, hempty⟩ := c4 p hp hrest
    by_cases h5 : 5 ≤ effective_days prefs
    · refine ⟨h5, ?_, hempty⟩
      simpa [rest_days, h5] using hmem
    · exfalso
      simp [rest_days, h5] at hmem

/-- C5 witness: the 7-day relaxed no-travel fixture has effective day count
7 and exactly one rest day. -/
theorem C5_rest_day_insertion_witness :
    5 ≤ effective_days prefsSeven ∧
    itinC5.countP (fun p => p.isRestDay) =
      (if 5 ≤ effective_days prefsSeven then 1 else 0) :=
  ⟨by decide, (C5_rest_day_insertion zeroDist prefsSeven relaxedConfig 0 [[destA]]
    [] itinC5 (by decide) (by decide)).1⟩

/-- C7: with accommodation inclusion on and an explicit non-zero id, a
catalog record carrying that id which is active (given ids are unique in
the snapshot) is returned as a singleton, bypassing all other filters;
when no active record matches, selection falls back to the automatic
filtered selection, which returns at most 1 accommodation for trips of at
most 3 days and at most 2 otherwise. -/
theorem C7_accommodation_selection
    (prefs : TravelPreferences) (catalog : List Accommodation) (i : ℕ)
    (a : Accommodation)
    (hinc : prefs.includeAccommodation = true)
    (hid : prefs.accommodationId = some i)
    (hi : i ≠ 0) :
    ((a ∈ catalog → a.id = i → a.isActive = true → a.status = "active" →
      (catalog.map (fun x => x.id)).Nodup →
      select_accommodations prefs catalog = [a])) ∧
    (catalog.find? (fun x => x.id == i && x.isActive && (x.status == "active"))
        = none →
      select_accommodations prefs catalog =
          auto_select_accommodations prefs catalog ∧
      (auto_select_accommodations prefs catalog).length ≤
        (if prefs.days ≤ 3 then 1 else 2)) := by
  have hsel : select_accommodations prefs catalog =
      match catalog.find?
          (fun x => x.id == i && x.isActive && (x.status == "active")) with
      | some b => [b]
      | none => auto_select_accommodations prefs catalog := by
    simp [select_accommodations, hinc, hid, hi]
  constructor
  · intro hmem hidA hact hstat hnodup
    have hsome : (catalog.find?
        (fun x => x.id == i && x.isActive && (x.status == "active"))).isSome := by
      rw [List.find?_isSome]
      exact ⟨a, hmem, by simp [hidA, hact, hstat]⟩
    obtain ⟨b, hb⟩ := Option.isSome_iff_exists.mp hsome
    have hbmem : b ∈ catalog := List.mem_of_find?_eq_some hb
    have hbp := List.find?_some hb
    simp only [Bool.and_eq_true, beq_iff_eq] at hbp
    have hba : b = a := by
      apply List.inj_on_of_nodup_map hnodup hbmem hmem
      show b.id = a.id
      rw [hbp.1.1, hidA]
    rw [hsel, hb, hba]
  · intro hnone
    rw [hsel, hnone]
    refine ⟨rfl, ?_⟩
    simp only [auto_select_accommodations]
    rw [List.length_take]
    exact min_le_left _ _

/-- C7 witness: id 10 resolves to `accInn` and is returned alone; id 99
does not resolve and selection falls back to the automatic filter chain. -/
theorem C7_accommodation_selection_witness :
    select_accommodations prefsFarTrip [accInn] = [accInn] ∧
    (select_accommodations prefsMissingAcc [accInn] =
        auto_select_accommodations prefsMissingAcc [accInn] ∧
      (auto_select_accommodations prefsMissingAcc [accInn]).length ≤
        (if prefsMissingAcc.days ≤ 3 then 1 else 2)) :=
  ⟨(C7_accommodation_selection prefsFarTrip [accInn] 10 accInn (by decide)
      (by decide) (by decide)).1 (by decide) (by decide) (by decide) (by decide)
      (by decide),
   (C7_accommodation_selection prefsMissingAcc [accInn] 99 accInn (by decide)
      (by decide) (by decide)).2 (by decide)⟩

/-- C8: destination filtering is monotone in the traveler's budget tier —
every destination eligible at tier low is eligible at tier medium, and
every destination eligible at medium is eligible at high. -/
theorem C8_budget_monotone (prefs : TravelPreferences) (catalog : List Destination)
    (d : Destination) :
    (d ∈ filter_destinations { prefs with budgetCategory := "low" } catalog →
      d ∈ filter_destinations { prefs with budgetCategory := "medium" } catalog) ∧
    (d ∈ filter_destinations { prefs with budgetCategory := "medium" } catalog →
      d ∈ filter_destinations { prefs with budgetCategory := "high" } catalog) := by
  constructor
  · intro h
    rw [mem_filter_destinations] at h ⊢
    obtain ⟨hmem, hact, hex1, hex2, hbud, hc1, hc2, hc3⟩ := h
    refine ⟨hmem, hact, hex1, hex2, ?_, hc1, hc2, hc3⟩
    have e1 : user_budget_level ({ prefs with budgetCategory := "low" } :
        TravelPreferences).budgetCategory = 1 := rfl
    have e2 : user_budget_level ({ prefs with budgetCategory := "medium" } :
        TravelPreferences).budgetCategory = 2 := rfl
    rw [e1] at hbud
    rw [e2]
    exact (acceptable_budgets_step d.budgetCategory).1 hbud
  · intro h
    rw [mem_filter_destinations] at h ⊢
    obtain ⟨hmem, hact, hex1, hex2, hbud, hc1, hc2, hc3⟩ := h
    refine ⟨hmem, hact, hex1, hex2, ?_, hc1, hc2, hc3⟩
    have e2 : user_budget_level ({ prefs with budgetCategory := "medium" } :
        TravelPreferences).budgetCategory = 2 := rfl
    have e3 : user_budget_level ({ prefs with budgetCategory := "high" } :
        TravelPreferences).budgetCategory = 3 := rfl
    rw [e2] at hbud
    rw [e3]
    exact (acceptable_budgets_step d.budgetCategory).2 hbud

/-- C8 witness: the low-budget `destA`, eligible at tier low, stays eligible
at tiers medium and high. -/
theorem C8_budget_monotone_witness :
    destA ∈ filter_destinations
      { prefsPlain2 with budgetCategory := "medium" } [destA] ∧
    destA ∈ filter_destinations
      { prefsPlain2 with budgetCategory := "high" } [destA] :=
  ⟨(C8_budget_monotone prefsPlain2 [destA] destA).1 (by decide),
   (C8_budget_monotone prefsPlain2 [destA] destA).2
     ((C8_budget_monotone prefsPlain2 [destA] destA).1 (by decide))⟩

/-- C9 (amended): when a start date is supplied and parses, the planner's
output is independent of the clock — the run is a deterministic function of
the preferences and catalog snapshot; without a start date the run is
stamped from the current time (see the counterexample). -/
theorem C9_start_date_determinism
    (dist : DistOracle) (prefs : TravelPreferences)
    (destCatalog : List Destination) (accCatalog : List Accommodation)
    (d n1 n2 : ℤ) (hd : prefs.startDate = some (some d)) :
    generate_itinerary dist prefs destCatalog accCatalog n1 =
      generate_itinerary dist prefs destCatalog accCatalog n2 := by
  have hp : ∀ n : ℤ, parse_start_date prefs n = d := by
    intro n
    simp [parse_start_date, hd]
  simp only [generate_itinerary, hp]

/-- C9 witness: the dated fixture run at clock 0 and at clock 999 produce
the same serialized itinerary. -/
theorem C9_start_date_determinism_witness :
    generate_itinerary zeroDist prefsDated [destA] [] 0 =
      generate_itinerary zeroDist prefsDated [destA] [] 999 :=
  C9_start_date_determinism zeroDist prefsDated [destA] [] 11016 0 999 (by decide)

/-- C10: no destination id is referenced by more than one activity across
the whole generated itinerary — deduplication, single-day round-robin
assignment of must-visits and the forward-only shared filler index make
every schedule duplicate-free. -/
theorem C10_no_duplicate_destination
    (dist : DistOracle) (prefs : TravelPreferences) (cfg : PaceConfig)
    (tripStart : ℤ) (clusters : List (List Destination))
    (accs : List Accommodation) (itin : List DayPlan) (x : ℕ)
    (hdays : 1 ≤ prefs.days)
    (h : build_daily_itinerary dist prefs cfg tripStart clusters accs = some itin) :
    countDest x itin ≤ 1 :=
  (build_daily_itinerary_master dist prefs cfg tripStart clusters accs itin
    hdays h).2.2.2.2.2 x

/-- C10 witness: destination id 1 appears at most once in the scheduled
three-must-visit fixture. -/
theorem C10_no_duplicate_destination_witness :
    countDest 1 itinMust ≤ 1 :=
  C10_no_duplicate_destination constDist54 prefsThreeMust relaxedConfig 0
    [[destA, destB, destC]] [] itinMust 1 (by decide) (by decide)

end MatnogPlanner
